import Mathlib

/-!
Verification of the vLLM extras tooling scripts:
`extras/testing/run_tests.py`, `extras/testing/compare_results.py`, and
`extras/tools/modelscope/manage.py`.

The scripts manipulate JSON/YAML-like values, the file system, and external
subprocesses.  We shallowly embed them here:

* JSON/YAML values become the inductive type `J` (integers stand in for
  Python numbers; the scripts never compute with fractional values in the
  logic the theorems touch).
* The file system becomes explicit association lists (path to parsed
  content) or plain path lists where only existence matters.
* External effects (subprocess execution, `podman`, ModelScope downloads,
  wall-clock timestamps) become oracle parameters; the commands issued to
  the outside world are recorded as explicit event traces.
* Python `SystemExit` / uncaught exceptions become `Except String`.
-/

set_option maxHeartbeats 1600000

/-- Lexicographic comparison of character lists by code point (the order
Python uses to compare `str` values). -/
def charsLt : List Char → List Char → Bool
  | [], [] => false
  | [], _ :: _ => true
  | _ :: _, [] => false
  | a :: as, b :: bs =>
      if a.toNat < b.toNat then true
      else if b.toNat < a.toNat then false
      else charsLt as bs

/-- Python `<` on strings. -/
def pyStrLt (a b : String) : Bool := charsLt a.data b.data

/-- `sorted(...)` over strings: Python sorts strings by code points; an
insertion sort with the same order. -/
def insortStr (x : String) : List String → List String
  | [] => [x]
  | y :: ys => if pyStrLt x y then x :: y :: ys else y :: insortStr x ys

/-- Stable ascending sort of strings (model of Python `sorted`). -/
def sortStrs (l : List String) : List String :=
  l.foldr insortStr []

/-- ASCII whitespace stripped by Python `str.strip()`. -/
def pyIsSpace (c : Char) : Bool :=
  c = ' ' || c = '\t' || c = '\n' || c = '\r' || c = '\x0b' || c = '\x0c'

/-- Python `str.strip()`. -/
def pyStrip (s : String) : String :=
  String.mk (((s.data.dropWhile pyIsSpace).reverse.dropWhile pyIsSpace).reverse)

/-- Decimal digit parser used by the `int()` model. -/
def parseDigits : List Char → Nat → Option Nat
  | [], acc => some acc
  | c :: cs, acc =>
      if 48 ≤ c.toNat ∧ c.toNat ≤ 57 then
        parseDigits cs (acc * 10 + (c.toNat - 48))
      else none

/-- Python `int(str)`: optional sign and decimal digits after stripping
whitespace; raises `ValueError` otherwise. -/
def pyIntOfString (s : String) : Except String Int :=
  let t := (pyStrip s).data
  let signDigits : Int × List Char :=
    match t with
    | '-' :: rest => (-1, rest)
    | '+' :: rest => (1, rest)
    | _ => (1, t)
  match signDigits.2, parseDigits signDigits.2 0 with
  | _ :: _, some n => .ok (signDigits.1 * (n : Int))
  | _, _ => .error ("invalid literal for int() with base 10: " ++ s)

/-- `needle` is a prefix of `hay` (character lists). -/
def charsStartsWith : List Char → List Char → Bool
  | [], _ => true
  | _ :: _, [] => false
  | n :: ns, h :: hs => n = h && charsStartsWith ns hs

/-- `needle` occurs somewhere in `hay` (Python `sub in s`). -/
def charsContains (needle : List Char) : List Char → Bool
  | [] => charsStartsWith needle []
  | h :: hs => charsStartsWith needle (h :: hs) || charsContains needle hs

/-- Python `sub in s` on strings. -/
def pyContains (s sub : String) : Bool := charsContains sub.data s.data

/-- Python `s.startswith(p)`. -/
def pyStartsWith (s p : String) : Bool := charsStartsWith p.data s.data

/-- Replace every (non-overlapping, leftmost-first) occurrence of `old` by
`new`, fuelled by the remaining length; with fuel at least the length of
the text and non-empty `old` this is Python `str.replace`.  (The scripts
never call `replace` with an empty pattern.) -/
def charsReplace (old new : List Char) : Nat → List Char → List Char
  | _, [] => []
  | 0, hay => hay
  | fuel + 1, h :: hs =>
      if !old.isEmpty && charsStartsWith old (h :: hs) then
        new ++ charsReplace old new fuel ((h :: hs).drop old.length)
      else h :: charsReplace old new fuel hs

/-- Python `s.replace(old, new)` for non-empty `old`. -/
def pyReplace (s old new : String) : String :=
  String.mk (charsReplace old.data new.data s.data.length s.data)

/-- JSON/YAML-like values as loaded by `json.loads` / `yaml.safe_load`.
Numbers are modelled as integers; object keys are strings. -/
inductive J where
  | null : J
  | bool (b : Bool) : J
  | num (n : Int) : J
  | str (s : String) : J
  | arr (xs : List J) : J
  | obj (kvs : List (String × J)) : J
deriving Repr

namespace J

/-- Boolean structural equality on values (model of Python `==` between
JSON/YAML-loaded values; we do not model Python's `1 == True` coercion,
which the scripts never rely on). -/
def beq : J → J → Bool
  | .null, .null => true
  | .bool a, .bool b => a == b
  | .num a, .num b => a == b
  | .str a, .str b => a == b
  | .arr xs, .arr ys => beqList xs ys
  | .obj xs, .obj ys => beqKVs xs ys
  | _, _ => false
where
  beqList : List J → List J → Bool
    | [], [] => true
    | x :: xs, y :: ys => beq x y && beqList xs ys
    | _, _ => false
  beqKVs : List (String × J) → List (String × J) → Bool
    | [], [] => true
    | (k, v) :: xs, (k', v') :: ys => k == k' && beq v v' && beqKVs xs ys
    | _, _ => false

instance : BEq J := ⟨beq⟩


/-- `dict.get(key)` on a Python dict loaded from JSON/YAML: first matching
key (keys are unique in dicts built by the interpreter). Non-dicts have no
keys. -/
def objGet : J → String → Option J
  | .obj kvs, k => lookupKey kvs k
  | _, _ => none
where
  lookupKey : List (String × J) → String → Option J
    | [], _ => none
    | (k', v) :: rest, k => if k' = k then some v else lookupKey rest k

/-- `dict[key] = value` semantics: update in place when the key is present
(keeping its position), append otherwise. -/
def objSet : List (String × J) → String → J → List (String × J)
  | [], k, v => [(k, v)]
  | (k', v') :: rest, k, v =>
      if k' = k then (k, v) :: rest else (k', v') :: objSet rest k v

/-- Python truthiness of a loaded JSON/YAML value. -/
def truthy : J → Bool
  | .null => false
  | .bool b => b
  | .num n => n != 0
  | .str s => !s.isEmpty
  | .arr xs => !xs.isEmpty
  | .obj kvs => !kvs.isEmpty

/-- Python `str()` of a scalar value. Containers are rendered with an
abbreviated form; no theorem in this file depends on the container case. -/
def pyStr : J → String
  | .null => "None"
  | .bool b => if b then "True" else "False"
  | .num n => toString n
  | .str s => s
  | .arr _ => "[...]"
  | .obj _ => "\x7b...\x7d"

/-- Python `int()` of a loaded value; raises (here: errors) on
non-numeric input. -/
def pyInt : J → Except String Int
  | .num n => .ok n
  | .bool b => .ok (if b then 1 else 0)
  | .str s => pyIntOfString s
  | _ => .error "int() argument must be a string or a number"

/-- `Path(value)` on a value read from configuration: accepts strings,
raises `TypeError` otherwise. -/
def getStr : J → Except String String
  | .str s => .ok s
  | _ => .error "TypeError: argument should be a str or an os.PathLike object"

end J

/-- `section.get(key, default)`: the dict value when present, the default
otherwise. -/
def jget (sec : J) (k : String) (dflt : J) : J :=
  (J.objGet sec k).getD dflt

/-- `isinstance(x, Sequence)` coercion used on `commands`: a YAML list is
the sequence of its elements; a string is the sequence of its
one-character strings; everything else is not a sequence. -/
def seqItems : J → Option (List J)
  | J.arr xs => some xs
  | J.str s => some (s.data.map (fun c => J.str (String.mk [c])))
  | _ => none

namespace RunTests

/-!
Embedding of `extras/testing/run_tests.py`.

`run_command` hands the command to `subprocess.run`; the outside world
decides the outcome, which we model with a `World` oracle.  The
environment dictionary merged for the child process and the printed
progress lines do not influence any recorded data and are not modelled.
-/

/-- Outcome of one `subprocess.run` invocation as resolved by the outside
world: the process completed with a return code, wall-clock duration and
captured output, or it exceeded the configured timeout
(`subprocess.TimeoutExpired`).  Durations are modelled as integers. -/
inductive ExecOutcome where
  | completed (returncode : Int) (duration : Int) (stdout stderr : String)
  | timedOut
deriving DecidableEq, Repr

/-- External-world oracle: `exec suite index timeout` is the outcome of
the command executed for entry `index` of suite `suite` under the given
configured timeout, and `stamp suite index` the timestamp taken before
it. -/
structure World where
  exec : String → Nat → Option Int → ExecOutcome
  stamp : String → Nat → String

/-- `subprocess.run` can raise `TimeoutExpired` only when a timeout was
configured; every world modelling a real subprocess satisfies this. -/
def World.lawfulTimeout (w : World) : Prop :=
  ∀ s i, w.exec s i none ≠ .timedOut

/-- `MAX_OUTPUT_CHARS`. -/
def MAX_OUTPUT_CHARS : Nat := 4000

/-- `_tail`: keep at most the last `MAX_OUTPUT_CHARS` characters. -/
def tailStr (s : String) : String :=
  if s.length ≤ MAX_OUTPUT_CHARS then s else s.drop (s.length - MAX_OUTPUT_CHARS)

/-- One entry of the JSON results list built by `run_suite` (the dict key
for `duration` is `"duration_s"`). -/
structure Record where
  profile : String
  suite : String
  name : J
  command : String
  timestamp : String
  status : String
  returncode : J
  duration : J
  stdout : String
  stderr : String
deriving Repr

/-- `item.get("name") or f"{suite_name}-{index}"`. -/
def itemName (suiteName : String) (idx : Nat) (item : J) : J :=
  let n := (J.objGet item "name").getD J.null
  if J.truthy n then n else J.str (suiteName ++ "-" ++ toString idx)

/-- `item.get("cmd")` with the `isinstance(command, str)` check. -/
def itemCmd (suiteName : String) (idx : Nat) (item : J) : Except String String :=
  match J.objGet item "cmd" with
  | some (J.str c) => .ok c
  | _ =>
      .error ("Suite \x27" ++ suiteName ++ "\x27 command \x27" ++
        J.pyStr (itemName suiteName idx item) ++ "\x27 missing \x27cmd\x27")

/-- `item.get("workdir")` validation; a falsy workdir resolves to `None`
(`Path(workdir).resolve() if workdir else None`). -/
def itemWorkdir (suiteName : String) (idx : Nat) (item : J) :
    Except String (Option String) :=
  match J.objGet item "workdir" with
  | none => .ok none
  | some J.null => .ok none
  | some (J.str w) => .ok (if w.isEmpty then none else some w)
  | some _ =>
      .error ("Suite \x27" ++ suiteName ++ "\x27 command \x27" ++
        J.pyStr (itemName suiteName idx item) ++ "\x27 has invalid workdir")

/-- `item.get("env") or {}` with the Mapping check. -/
def itemEnv (suiteName : String) (idx : Nat) (item : J) :
    Except String (List (String × J)) :=
  let e := (J.objGet item "env").getD J.null
  let e' := if J.truthy e then e else J.obj []
  match e' with
  | J.obj kvs => .ok kvs
  | _ =>
      .error ("Suite \x27" ++ suiteName ++ "\x27 command \x27" ++
        J.pyStr (itemName suiteName idx item) ++ "\x27 env must be a mapping")

/-- `item.get("timeout")`, converted with `int(...)` when not `None`. -/
def itemTimeout (item : J) : Except String (Option Int) :=
  match J.objGet item "timeout" with
  | none => .ok none
  | some J.null => .ok none
  | some t =>
      match J.pyInt t with
      | .ok n => .ok (some n)
      | .error e => .error e

/-- The body of `run_suite`'s loop for one command entry: validate the
entry, run the command, and build the result record. -/
def processItem (w : World) (suiteName profile : String) (idx : Nat) (item : J) :
    Except String Record :=
  match item with
  | J.obj _ =>
      match itemCmd suiteName idx item with
      | .error e => .error e
      | .ok command =>
          match itemWorkdir suiteName idx item with
          | .error e => .error e
          | .ok _workdir =>
              match itemEnv suiteName idx item with
              | .error e => .error e
              | .ok _env =>
                  match itemTimeout item with
                  | .error e => .error e
                  | .ok timeout =>
                      let name := itemName suiteName idx item
                      let ts := w.stamp suiteName idx
                      match w.exec suiteName idx timeout with
                      | .completed rc dur out err =>
                          .ok { profile := profile, suite := suiteName,
                                name := name, command := command,
                                timestamp := ts,
                                status := if rc = 0 then "passed" else "failed",
                                returncode := J.num rc, duration := J.num dur,
                                stdout := tailStr out, stderr := tailStr err }
                      | .timedOut =>
                          .ok { profile := profile, suite := suiteName,
                                name := name, command := command,
                                timestamp := ts,
                                status := "timeout", returncode := J.null,
                                duration :=
                                  match timeout with
                                  | some t => J.num t
                                  | none => J.null,
                                stdout := "",
                                stderr := "Command timed out after " ++
                                  (match timeout with
                                   | some t => toString t
                                   | none => "None") ++ "s" }
  | _ =>
      .error ("Suite \x27" ++ suiteName ++ "\x27 command #" ++ toString idx ++
        " must be a mapping")

/-- The `for index, item in enumerate(commands)` loop of `run_suite`. -/
def runItems (w : World) (suiteName profile : String) :
    Nat → List J → Except String (List Record)
  | _, [] => .ok []
  | idx, item :: rest =>
      match processItem w suiteName profile idx item with
      | .error e => .error e
      | .ok r =>
          match runItems w suiteName profile (idx + 1) rest with
          | .error e => .error e
          | .ok rs => .ok (r :: rs)

/-- `run_suite`. -/
def runSuite (w : World) (suiteName : String) (suiteCfg : J) (profile : String) :
    Except String (List Record) :=
  match seqItems ((J.objGet suiteCfg "commands").getD J.null) with
  | some items => runItems w suiteName profile 0 items
  | none =>
      .error ("Suite \x27" ++ suiteName ++ "\x27 must contain a sequence of commands")

/-- The JSON object `json.dumps` serializes for one record, in the key
order the code builds the dict. -/
def recordToJ (r : Record) : J :=
  J.obj [("profile", J.str r.profile), ("suite", J.str r.suite),
         ("name", r.name), ("command", J.str r.command),
         ("timestamp", J.str r.timestamp), ("status", J.str r.status),
         ("returncode", r.returncode), ("duration_s", r.duration),
         ("stdout", J.str r.stdout), ("stderr", J.str r.stderr)]

/-- `write_results`: the file system is a map from path to the JSON value
stored there; the records list is serialized as a JSON array. -/
def writeResults (fs : List (String × J)) (path : String)
    (payload : List Record) : List (String × J) :=
  J.objSet fs path (J.arr (payload.map recordToJ))

/-- The lines printed by `summarise`. -/
def summaryLines (results : List Record) : List String :=
  let failures := results.countP (fun r => r.status != "passed")
  ("[summary] total=" ++ toString results.length ++ " failures=" ++
    toString failures) ::
  (if failures ≠ 0 then
    (results.filter (fun r => r.status != "passed")).map (fun r =>
      "[summary] " ++ r.suite ++ "::" ++ J.pyStr r.name ++ " [" ++ r.status ++
        "] rc=" ++ J.pyStr r.returncode)
  else [])

/-- Python `list(x)` over a loaded value. -/
def pyList : J → Except String (List J)
  | J.arr xs => .ok xs
  | J.str s => .ok (s.data.map (fun c => J.str (String.mk [c])))
  | J.obj kvs => .ok (kvs.map (fun kv => J.str kv.1))
  | _ => .error "TypeError: object is not iterable"

/-- `collect_suites`; `suites` is the repeatable `--suite` argument. -/
def collectSuites (matrix : J) (profile : String)
    (suites : Option (List String)) : Except String (List J) :=
  let declared := jget matrix "profiles" (J.obj [])
  let defaultOrder : J :=
    match declared with
    | J.obj _ =>
        match J.objGet declared profile with
        | some payload =>
            match payload with
            | J.obj _ => jget payload "suites" (J.arr [])
            | _ => J.arr []
        | none => J.arr []
    | _ => J.arr []
  let argSuites := (suites.getD []).map J.str
  let step1 : Except String (List J) :=
    if !argSuites.isEmpty then .ok argSuites
    else if J.truthy defaultOrder then pyList defaultOrder
    else if J.truthy (jget matrix "default_suites" (J.arr [])) then
      pyList (jget matrix "default_suites" (J.arr []))
    else .ok []
  match step1 with
  | .error e => .error e
  | .ok selected =>
      let step2 : Except String (List J) :=
        if selected.isEmpty then
          let sm := jget matrix "suites" J.null
          let sm' := if J.truthy sm then sm else J.obj []
          match sm' with
          | J.obj kvs => .ok (kvs.map (fun kv => J.str kv.1))
          | _ => .error "AttributeError: object has no attribute keys"
        else .ok selected
      match step2 with
      | .error e => .error e
      | .ok selected2 =>
          if selected2.isEmpty then .error "No suites selected to run"
          else .ok selected2

/-- The `for suite in suites` loop of `main`: look up each selected
suite's configuration and extend the combined results in order. -/
def runSelected (w : World) (suitesCfg : J) (profile : String) :
    List J → Except String (List Record)
  | [] => .ok []
  | s :: rest =>
      match s with
      | J.str name =>
          match J.objGet suitesCfg name with
          | some (J.obj kvs) =>
              match runSuite w name (J.obj kvs) profile with
              | .error e => .error e
              | .ok rs =>
                  match runSelected w suitesCfg profile rest with
                  | .error e => .error e
                  | .ok more => .ok (rs ++ more)
          | _ => .error ("Suite \x27" ++ name ++ "\x27 missing configuration")
      | other =>
          .error ("Suite \x27" ++ J.pyStr other ++ "\x27 missing configuration")

/-- `main`, from the parsed matrix to the exit code.  `outPath` stands for
`resolve_output_path`'s result (a timestamped path chosen outside the
logic being verified); the returned triple is the final file system, the
printed lines of `write_results`/`summarise`, and the exit code. -/
def mainRun (w : World) (matrix : J) (profile : String)
    (suitesArg : Option (List String)) (outPath : String)
    (fs : List (String × J)) :
    Except String (List (String × J) × List String × Int) :=
  match matrix with
  | J.obj _ =>
      match J.objGet matrix "suites" with
      | some (J.obj kvs) =>
          match collectSuites matrix profile suitesArg with
          | .error e => .error e
          | .ok selected =>
              match runSelected w (J.obj kvs) profile selected with
              | .error e => .error e
              | .ok results =>
                  let fs' := writeResults fs outPath results
                  let printed :=
                    ("[results] wrote " ++ outPath) :: summaryLines results
                  .ok (fs', printed,
                    if results.all (fun r => r.status == "passed") then 0 else 1)
      | _ => .error "Matrix missing \x27suites\x27 mapping"
  | _ => .error "Matrix root must be a mapping"

end RunTests

/-- Generic `dict[key] = value` update on an association list: update in
place when the key is present (keeping its position), append otherwise. -/
def assocSet {β : Type} : List (String × β) → String → β → List (String × β)
  | [], k, v => [(k, v)]
  | (k', v') :: rest, k, v =>
      if k' = k then (k, v) :: rest else (k', v') :: assocSet rest k v

namespace CompareResults

/-!
Embedding of `extras/testing/compare_results.py`'s `compare`.

Its inputs are the `(suite, name)`-keyed indexes built by `load_results`;
printing is modelled by tags recording which report branch fired for each
key (the `describe` text formatting carries no decision logic).
-/

/-- A results index: `(suite, name)` keys to result entries. -/
abbrev Index := List ((String × String) × J)

/-- `base.get(key)`. -/
def look (idx : Index) (k : String × String) : Option J := List.lookup k idx

/-- The report branch `compare` takes for one key. -/
inductive Line where
  | added (k : String × String)
  | missing (k : String × String)
  | durationNote (k : String × String)
  | statusRegression (k : String × String)
  | stillFailing (k : String × String)
deriving DecidableEq, Repr

/-- Python `float()` of a loaded value.  Durations are modelled as
integers (fractional literals are outside the model); non-numeric values
raise, as in Python. -/
def pyFloat : J → Except String Int
  | .num n => .ok n
  | .bool b => .ok (if b then 1 else 0)
  | .str s => pyIntOfString s
  | _ => .error "TypeError: float() argument must be a string or a number"

/-- Python `<` on `(str, str)` tuples. -/
def pairLt (a b : String × String) : Bool :=
  pyStrLt a.1 b.1 || (a.1 == b.1 && pyStrLt a.2 b.2)

/-- Insertion step for sorting keys. -/
def insortPair (x : String × String) :
    List (String × String) → List (String × String)
  | [] => [x]
  | y :: ys => if pairLt x y then x :: y :: ys else y :: insortPair x ys

/-- `sorted(...)` over `(suite, name)` keys. -/
def sortPairs (l : List (String × String)) : List (String × String) :=
  l.foldr insortPair []

/-- Duplicate removal (model of going through `set(...)`), keeping first
occurrences. -/
def dedupAcc : List (String × String) → List (String × String) →
    List (String × String)
  | [], _ => []
  | x :: xs, seen =>
      if seen.contains x then dedupAcc xs seen
      else x :: dedupAcc xs (x :: seen)

/-- `sorted(set(baseline.keys()) | set(patched.keys()))`. -/
def unionKeys (base patch : Index) : List (String × String) :=
  sortPairs (dedupAcc (base.map Prod.fst ++ patch.map Prod.fst) [])

/-- One iteration of `compare`'s `for key in all_keys` loop: the report
branch taken and the number of regressions the key contributes. -/
def compareKey (base patch : Index) (k : String × String) :
    Except String (List Line × Nat) :=
  match look base k, look patch k with
  | none, _ => .ok ([.added k], 0)
  | some _, none => .ok ([.missing k], 1)
  | some b, some p =>
      let bs := J.objGet b "status"
      let ps := J.objGet p "status"
      match pyFloat (jget b "duration_s" (J.num 0)) with
      | .error e => .error e
      | .ok bd =>
          match pyFloat (jget p "duration_s" (J.num 0)) with
          | .error e => .error e
          | .ok pd =>
              let delta := pd - bd
              if bs == ps && ps == some (J.str "passed") then
                .ok ((if 1 ≤ delta.natAbs then [.durationNote k] else []), 0)
              else if !(bs == ps) then .ok ([.statusRegression k], 1)
              else if !(ps == some (J.str "passed")) then
                .ok ([.stillFailing k], 1)
              else .ok ([], 0)

/-- The loop of `compare`, accumulating report lines and the regression
counter. -/
def compareLoop (base patch : Index) :
    List (String × String) → Except String (List Line × Nat)
  | [] => .ok ([], 0)
  | k :: ks =>
      match compareKey base patch k with
      | .error e => .error e
      | .ok (ls, n) =>
          match compareLoop base patch ks with
          | .error e => .error e
          | .ok (ls', n') => .ok (ls ++ ls', n + n')

/-- `compare`: iterate over the sorted union of keys. -/
def compareRun (base patch : Index) : Except String (List Line × Nat) :=
  compareLoop base patch (unionKeys base patch)

/-- The claim's characterisation of a counted regression: the key is in
the baseline but missing in the patched results, or both are present and
the statuses differ, or both are present with the same non-"passed"
status. -/
def regressionClaim (base patch : Index) (k : String × String) : Bool :=
  match look base k, look patch k with
  | some _, none => true
  | some b, some p =>
      let bs := J.objGet b "status"
      let ps := J.objGet p "status"
      !(bs == ps) || (bs == ps && !(ps == some (J.str "passed")))
  | _, _ => false

end CompareResults

namespace Manage

/-!
Embedding of `extras/tools/modelscope/manage.py`.

Paths are opaque absolute strings: `Path(...)` keeps the string,
`expanduser`/`resolve` are the identity (the CLI always works with
already-absolute paths under the user's home), `/` joins with a slash and
`.parent` drops the last component.  The YAML profile configuration
arrives pre-parsed as an association list (the file read is I/O), and
external effects are recorded as `Ev` events.
-/

/-- `PurePath.__truediv__`. -/
def joinPath (a b : String) : String := a ++ "/" ++ b

/-- `PurePath.parent`: drop the last component ("." when there is no
separator, "/" for a direct child of the root). -/
def parentPath (p : String) : String :=
  let rest := p.data.reverse.dropWhile (fun c => c ≠ '/')
  match rest with
  | [] => "."
  | ['/'] => "/"
  | _ :: more => String.mk more.reverse

/-- One character of `_safe_model_key`'s sanitisation. -/
def safeChar (c : Char) : Char :=
  if c.isAlphanum || c = '-' || c = '_' || c = '.' then c else '_'

/-- `_safe_model_key` (`_normalize_model_id` strips whitespace first). -/
def safeModelKey (modelId : String) : String :=
  String.mk ((pyStrip modelId).data.map safeChar)

/-- `MODEL_VOLUME_PREFIX` / `KV_VOLUME_PREFIX` applied by `_volume_name`. -/
def volumeName (pre modelId : String) : String := pre ++ safeModelKey modelId

/-- `DEFAULT_MODELSCOPE_CACHE` for a given home directory. -/
def defaultModelscopeCache (home : String) : String :=
  joinPath (joinPath home ".cache") "modelscope"

/-- `DEFAULT_HF_HOME`. -/
def defaultHfHome (home : String) : String :=
  joinPath (joinPath home ".cache") "hf"

/-- `DEFAULT_KV_ROOT`. -/
def defaultKvRoot (home : String) : String := joinPath home "kvdata"

/-- `_model_cache_root`. -/
def modelCacheRoot (home modelId : String) : String :=
  joinPath (defaultModelscopeCache home) (safeModelKey modelId)

/-- `_kv_model_root`. -/
def kvModelRoot (home modelId : String) : String :=
  joinPath (defaultKvRoot home) (safeModelKey modelId)

/-- `OFFLINE_ENV_DEFAULTS`, in declaration order. -/
def OFFLINE_ENV_DEFAULTS : List (String × String) :=
  [("VLLM_USE_MODELSCOPE", "True"), ("HF_HUB_OFFLINE", "1"),
   ("HF_DATASETS_OFFLINE", "1"), ("TRANSFORMERS_OFFLINE", "1"),
   ("TRANSFORMERS_NO_ADVISORY_WARNINGS", "1")]

/-- `dict.setdefault`: insert at the end when missing; also return the
resulting value. -/
def envSetdefault (m : List (String × String)) (k v : String) :
    List (String × String) × String :=
  match List.lookup k m with
  | some v' => (m, v')
  | none => (m ++ [(k, v)], v)

/-- `_apply_offline_defaults(env, cache_dir=...)`. -/
def applyOfflineDefaults (home : String) (cacheDir : Option String)
    (env0 : List (String × String)) : List (String × String) :=
  let env1 := OFFLINE_ENV_DEFAULTS.foldl
    (fun m kv => (envSetdefault m kv.1 kv.2).1) env0
  let env2 :=
    match List.lookup "MODELSCOPE_CACHE" env1 with
    | some cv =>
        if !cv.isEmpty then
          (envSetdefault (assocSet env1 "MODELSCOPE_CACHE" cv)
            "MODELSCOPE_HOME" cv).1
        else
          let cs := cacheDir.getD (defaultModelscopeCache home)
          assocSet (assocSet env1 "MODELSCOPE_CACHE" cs) "MODELSCOPE_HOME" cs
    | none =>
        let cs := cacheDir.getD (defaultModelscopeCache home)
        assocSet (assocSet env1 "MODELSCOPE_CACHE" cs) "MODELSCOPE_HOME" cs
  let hf := envSetdefault env2 "HF_HOME" (defaultHfHome home)
  let env3 := (envSetdefault hf.1 "TRANSFORMERS_CACHE"
    (joinPath hf.2 "transformers")).1
  (envSetdefault env3 "HF_DATASETS_CACHE" (joinPath hf.2 "datasets")).1

/-- `ensure_profile`, over the parsed `profiles` mapping of
`model_profiles.yaml` (reading and validating the YAML file is I/O done
by `load_profiles`; dict keys are unique). -/
def ensureProfile (profiles : List (String × J)) (name : String) :
    Except String J :=
  match List.lookup name profiles with
  | some p => .ok p
  | none =>
      .error ("Unknown profile \x27" ++ name ++ "\x27. Available: " ++
        String.intercalate ", " (sortStrs (profiles.map Prod.fst)))

/-- `KEY=VALUE` split (`item.split("=", 1)`). -/
def splitEq (s : String) : Option (String × String) :=
  let pre := s.data.takeWhile (fun c => c ≠ '=')
  if pre.length = s.data.length then none
  else some (String.mk pre, String.mk (s.data.drop (pre.length + 1)))

/-- `apply_env`: overlay `base` on the process environment, then apply
`KEY=VALUE` overrides with their validation. -/
def applyEnv (osEnv base : List (String × String)) (overrides : List String) :
    Except String (List (String × String)) :=
  applyEnvGo (base.foldl (fun m kv => assocSet m kv.1 kv.2) osEnv) overrides
where
  applyEnvGo : List (String × String) → List String →
      Except String (List (String × String))
    | env, [] => .ok env
    | env, item :: rest =>
        match splitEq item with
        | none =>
            .error ("Invalid env override \x27" ++ item ++
              "\x27, expected KEY=VALUE")
        | some (key, value) =>
            if key.isEmpty then
              .error ("Invalid env override \x27" ++ item ++ "\x27, missing key")
            else applyEnvGo (assocSet env key value) rest

/-- A `Sequence`-of-strings check used for `serve.args` and
`kv_calibration.quant_args` (a string is a `Sequence` of its
one-character strings). -/
def seqOfStrings (v : J) (notSeqMsg notStrMsg : String) :
    Except String (List String) :=
  match seqItems v with
  | none => .error notSeqMsg
  | some items => seqOfStringsGo items
where
  seqOfStringsGo : List J → Except String (List String)
    | [] => .ok []
    | J.str s :: rest =>
        match seqOfStringsGo rest with
        | .error e => .error e
        | .ok ss => .ok (s :: ss)
    | _ :: _ => .error notStrMsg

/-- The `env_data` accumulation of `handle_serve`: skip falsy blocks,
reject non-mappings, update with stringified keys and values. -/
def envBlock (envData : List (String × String)) (block : J) :
    Except String (List (String × String)) :=
  if !J.truthy block then .ok envData
  else
    match block with
    | J.obj kvs =>
        .ok (kvs.foldl (fun m kv => assocSet m kv.1 (J.pyStr kv.2)) envData)
    | _ => .error "serve.env/profile.env must be mappings"

/-- The body of `handle_serve` applied to the resolved profile mapping. -/
def serveFromProfile (split : String → List String) (home : String)
    (osEnv : List (String × String)) (pname : String) (profile : J)
    (extraArgs envOverrides : List String) :
    Except String (List String × List (String × String)) :=
  let serveSection := jget profile "serve" (J.obj [])
  match serveSection with
  | J.obj _ =>
      match jget serveSection "entrypoint"
          (J.str "python -m vllm.entrypoints.openai.api_server") with
      | J.str e =>
          let serveArgs := jget serveSection "args" (J.arr [])
          match (if J.truthy serveArgs then
                  seqOfStrings serveArgs "serve.args must be a sequence"
                    "serve.args entries must be strings"
                else .ok []) with
          | .error err => .error err
          | .ok argStrs =>
              let cmd := split e ++ argStrs.flatMap split ++
                extraArgs.flatMap split
              match envBlock [] (jget profile "env" J.null) with
              | .error err => .error err
              | .ok d1 =>
                  match envBlock d1 (jget serveSection "env" J.null) with
                  | .error err => .error err
                  | .ok d2 =>
                      match applyEnv osEnv
                          (applyOfflineDefaults home none d2) envOverrides with
                      | .error err => .error err
                      | .ok env => .ok (cmd, env)
      | _ => .error "serve.entrypoint must be a string"
  | _ => .error ("Profile \x27" ++ pname ++ "\x27 missing \x27serve\x27 mapping")

/-- `handle_serve` up to the subprocess call: the command word list and
the environment it would be launched with.  `split` abstracts
`shlex.split` (standard-library lexing of quoted strings); `--print-command`,
`--dry-run` and the subprocess itself only consume this pair. -/
def handleServe (split : String → List String) (home : String)
    (osEnv : List (String × String)) (profiles : List (String × J))
    (pname : String) (extraArgs envOverrides : List String) :
    Except String (List String × List (String × String)) :=
  match ensureProfile profiles pname with
  | .error e => .error e
  | .ok profile =>
      serveFromProfile split home osEnv pname profile extraArgs envOverrides

/-!
`_synthesize_transformer_files` and the normalisation passes it invokes.
The model directory is an association list from file name to parsed JSON
content; `none` marks a file that exists but fails `json.load`.
-/

/-- Contents of the model directory. -/
abbrev Dir := List (String × Option J)

/-- `(model_dir / name).exists()`. -/
def dirHas (d : Dir) (n : String) : Bool := (List.lookup n d).isSome

/-- Python `s.endswith(suffix)` (used for the `*.json` glob). -/
def pyEndsWith (s suf : String) : Bool :=
  charsStartsWith suf.data.reverse s.data.reverse

/-- The walk over `sorted(glob("*.json"))` picking the first JSON object
carrying `model_type` or `architectures`. -/
def pickedConfigGo (d : Dir) : List String → J
  | [] => J.obj []
  | n :: rest =>
      match List.lookup n d with
      | some (some (J.obj kvs)) =>
          if (J.objGet (J.obj kvs) "model_type").isSome ||
              (J.objGet (J.obj kvs) "architectures").isSome then J.obj kvs
          else pickedConfigGo d rest
      | _ => pickedConfigGo d rest

/-- The `picked` payload synthesized for a missing `config.json`. -/
def pickedConfig (d : Dir) : J :=
  pickedConfigGo d (sortStrs ((d.map Prod.fst).filter (fun n => pyEndsWith n ".json")))

/-- The payload synthesized for a missing `tokenizer_config.json`. -/
def tokenizerCfgPayload (d : Dir) : J :=
  if dirHas d "tokenizer.json" then J.obj [("tokenizer_file", J.str "tokenizer.json")]
  else if dirHas d "tokenizer.model" then J.obj [("model_max_length", J.num 32768)]
  else J.obj []

/-- The four files of the defaults loop, in iteration order. -/
def synthDefaultNames : List String :=
  ["special_tokens_map.json", "generation_config.json",
   "preprocessor_config.json", "added_tokens.json"]

/-- The defaults loop: create each missing file with `[]` for
`added_tokens.json` and `{}` otherwise. -/
def synthLoop : Dir → List String → Dir
  | d, [] => d
  | d, n :: rest =>
      synthLoop
        (if dirHas d n then d
         else assocSet d n
           (some (if pyContains n "added_tokens" then J.arr [] else J.obj [])))
        rest

/-- `_synthesize_transformer_files` before the two normalisation calls:
each file is written only when missing. -/
def synthCore (d0 : Dir) : Dir :=
  let d1 :=
    if dirHas d0 "config.json" then d0
    else assocSet d0 "config.json" (some (pickedConfig d0))
  let d2 :=
    if dirHas d1 "tokenizer_config.json" then d1
    else assocSet d1 "tokenizer_config.json" (some (tokenizerCfgPayload d1))
  synthLoop d2 synthDefaultNames

/-- The dict comprehension
`{token: idx for idx, token in enumerate(raw) if isinstance(token, str)}`. -/
def enumTokensGo : List J → Nat → List (String × J) → List (String × J)
  | [], _, acc => acc
  | J.str t :: rest, i, acc => enumTokensGo rest (i + 1) (J.objSet acc t (J.num i))
  | _ :: rest, i, acc => enumTokensGo rest (i + 1) acc

/-- Mapping form of a list-shaped `added_tokens.json`. -/
def enumTokens (xs : List J) : List (String × J) := enumTokensGo xs 0 []

/-- Python `key not in container` (raises `TypeError` on scalars). -/
def notInCheck (container : J) (key : String) : Except String Bool :=
  match container with
  | J.obj _ => .ok ((J.objGet container key).isNone)
  | J.arr xs => .ok (!xs.contains (J.str key))
  | J.str s => .ok (!pyContains s key)
  | _ => .error "TypeError: argument of type is not iterable"

/-- The `added_tokens.json` rewrite of `_normalize_tokenizer_artifacts`:
a parseable list becomes the enumerated mapping. -/
def normalizeAddedTokens (d0 : Dir) : Dir :=
  match List.lookup "added_tokens.json" d0 with
  | some (some (J.arr xs)) =>
      assocSet d0 "added_tokens.json" (some (J.obj (enumTokens xs)))
  | _ => d0

/-- `_normalize_tokenizer_artifacts`. -/
def normalizeTokenizerArtifacts (d0 : Dir) : Except String Dir :=
  let d1 := normalizeAddedTokens d0
  let cfgData : J :=
    match List.lookup "tokenizer_config.json" d1 with
    | some (some j) => j
    | some none => J.obj []
    | none => J.obj []
  match notInCheck cfgData "tokenizer_file" with
  | .error e => .error e
  | .ok notIn =>
      if notIn && dirHas d1 "tokenizer.json" then
        match cfgData with
        | J.obj kvs =>
            .ok (assocSet d1 "tokenizer_config.json"
              (some (J.obj (J.objSet kvs "tokenizer_file" (J.str "tokenizer.json")))))
        | _ => .error "TypeError: object does not support item assignment"
      else .ok d1

/-- The sentinel-key rewrite of `_sanitize_config_for_offline`: a
non-blank string pointing at a hub location becomes ".". -/
def sanitizeVal (v : J) : Option J :=
  match v with
  | J.str s =>
      if !(pyStrip s).isEmpty &&
          (pyContains s "meta-llama" || pyStartsWith s "hf://" ||
            s.data.contains '/') then
        some (J.str ".")
      else none
  | _ => none

/-- The `auto_map` rewrite: replace the hard-coded hub id in string
values. -/
def sanitizeAutoMap : List (String × J) → List (String × J) × Bool
  | [] => ([], false)
  | (k, J.str v) :: rest =>
      let r := sanitizeAutoMap rest
      if pyContains v "meta-llama" then
        ((k, J.str (pyReplace v "meta-llama/Meta-Llama-3-8B-Instruct" ".")) :: r.1,
          true)
      else ((k, J.str v) :: r.1, r.2)
  | kv :: rest =>
      let r := sanitizeAutoMap rest
      (kv :: r.1, r.2)

/-- One sentinel key step of `_sanitize_config_for_offline`. -/
def sanitizeStep (kvs : List (String × J)) (ch : Bool) (key : String) :
    List (String × J) × Bool :=
  match J.objGet (J.obj kvs) key with
  | some v =>
      match sanitizeVal v with
      | some v' => (J.objSet kvs key v', true)
      | none => (kvs, ch)
  | none => (kvs, ch)

/-- `_sanitize_config_for_offline`. -/
def sanitizeConfigForOffline (d : Dir) : Except String Dir :=
  match List.lookup "config.json" d with
  | none => .ok d
  | some none => .ok d
  | some (some data) =>
      match data with
      | J.obj kvs0 =>
          let s1 := sanitizeStep kvs0 false "base_model_name_or_path"
          let s2 := sanitizeStep s1.1 s1.2 "_name_or_path"
          let s3 :=
            match J.objGet (J.obj s2.1) "auto_map" with
            | some (J.obj am) =>
                let r := sanitizeAutoMap am
                (J.objSet s2.1 "auto_map" (J.obj r.1), s2.2 || r.2)
            | _ => s2
          if s3.2 then .ok (assocSet d "config.json" (some (J.obj s3.1)))
          else .ok d
      | _ => .error "AttributeError: object has no attribute get"

/-- `_synthesize_transformer_files`: best-effort creation of missing
files followed by the two normalisation passes. -/
def synthesizeTransformerFiles (d : Dir) : Except String Dir :=
  match normalizeTokenizerArtifacts (synthCore d) with
  | .error e => .error e
  | .ok d1 => sanitizeConfigForOffline d1

/-- The six file names of the synthesized set. -/
def synthesizedSet : List String :=
  ["config.json", "tokenizer_config.json", "special_tokens_map.json",
   "generation_config.json", "preprocessor_config.json", "added_tokens.json"]

/-!
`_clean_cache_root`, with the typed equality Python actually evaluates:
`cache_root` is a `pathlib.Path` while `cache_root.anchor` is a `str`;
`PurePath.__eq__` returns `NotImplemented` for non-`Path` operands and
`str.__eq__` does the same for a `Path`, so `==` falls back to identity
and yields `False` for every Path/str pair.
-/

/-- External-effect events issued by the CLI handlers. -/
inductive Ev where
  | ensureVolume (name : String)
  | ensureDir (p : String)
  | writeCalib (p : String) (samples : Int) (template : String)
  | download (modelId : String) (cacheDir : String)
  | synthesize (dir : String)
  | writeMetadata (root : String)
  | cloneRepo (dest : String)
  | writeRunner (p : String)
  | pipUninstall
  | pipInstallPkgs
  | pipInstallEditable (repo : String)
  | depsCheck
  | runQuant (runner script model output : String) (seqLen : Int)
      (calib : String) (extraArgs : List String)
  | rmtree (p : String)
deriving DecidableEq, Repr

/-- The two operand types of the `==` in `_clean_cache_root`. -/
inductive PyVal where
  | path (p : String)
  | str (s : String)

/-- Python `==` between those operands: `Path == str` is always `False`
(see the module comment above). -/
def pyEq : PyVal → PyVal → Bool
  | .path a, .path b => a == b
  | .str a, .str b => a == b
  | _, _ => false

/-- `PurePath.anchor` of an absolute POSIX path ("" for relative ones). -/
def pathAnchor (p : String) : String :=
  if pyStartsWith p "/" then "/" else ""

/-- `_clean_cache_root`: return silently when the path does not exist,
refuse when the path "equals" its anchor, otherwise `shutil.rmtree`. -/
def cleanCacheRoot (fs : List String) (cacheRoot : String) :
    List Ev × Except String Unit :=
  if !fs.contains cacheRoot then ([], .ok ())
  else if pyEq (.path cacheRoot) (.str (pathAnchor cacheRoot)) then
    ([], .error ("Refusing to remove root directory: " ++ cacheRoot))
  else ([Ev.rmtree cacheRoot], .ok ())

/-!
`handle_kv_calibrate`.  The file system is the list of existing paths;
external downloads and the contents a `git clone` brings are oracle
parameters of `KvWorld`.
-/

/-- External-world oracle for `kv-calibrate`: the user's home directory,
the process environment, the (resolved, via `_resolve_model_root`) model
directory a ModelScope download lands in, and the repo-relative paths a
fresh `llm-compressor` clone provides. -/
structure KvWorld where
  home : String
  osEnv : List (String × String)
  modelDirFor : String → String → String
  repoFiles : List String

/-- The parsed `kv-calibrate` argparse namespace. -/
structure KvArgs where
  profile : Option String := none
  model : Option String := none
  cacheDir : Option String := none
  output : Option String := none
  calibData : Option String := none
  samples : Option Int := none
  seqLen : Option Int := none
  datasetPrompt : Option String := none
  quantScript : Option String := none
  quantArg : List String := []
  llmCompressorRepo : Option String := none
  force : Bool := false
  skipDeps : Bool := false
  noVolumes : Bool := false

/-- Truthiness of an optional argparse string (absent or empty is
falsy). -/
def optTruthy (o : Option String) : Bool :=
  match o with
  | some s => !s.isEmpty
  | none => false

/-- Python `x or default` for an optional string argument. -/
def pyOrStr (o : Option String) (dflt : String) : String :=
  match o with
  | some s => if s.isEmpty then dflt else s
  | none => dflt

/-- Python `x or default` for an optional integer argument. -/
def pyOrInt (o : Option Int) (dflt : Int) : Int :=
  match o with
  | some n => if n = 0 then dflt else n
  | none => dflt

/-- The literal of `DEFAULT_QUANT_SCRIPT` used in two places. -/
def defaultQuantScriptRel : String :=
  "examples/quantization_non_uniform/quantization_multiple_modifiers.py"

/-- Default `dataset_prompt`. -/
def defaultPrompt : String :=
  "Calibration sample {i}. Short text for KV scales."

/-- Default `llm_compressor_repo` checkout location. -/
def defaultRepoPath (home : String) : String :=
  joinPath (joinPath (joinPath home ".local") "share") "llm-compressor"

/-- The ad-hoc `section` dict built in the `--model` branch, in the
construction order of the code. -/
def kvModelSection (W : KvWorld) (a : KvArgs) (modelId : String) : J :=
  let cacheDir := pyOrStr a.cacheDir (modelCacheRoot W.home modelId)
  J.obj [
    ("model_id", J.str modelId),
    ("output", J.str (pyOrStr a.output
      (joinPath (kvModelRoot W.home modelId) "kv_cache_scales.json"))),
    ("calib_data", J.str (pyOrStr a.calibData
      (joinPath (joinPath (kvModelRoot W.home modelId) "calib") "snippets.jsonl"))),
    ("samples", J.num (pyOrInt a.samples 512)),
    ("seq_len", J.num (pyOrInt a.seqLen 4096)),
    ("dataset_prompt", J.str (pyOrStr a.datasetPrompt defaultPrompt)),
    ("cache_dir", J.str cacheDir),
    ("llm_compressor_repo", J.str (pyOrStr a.llmCompressorRepo
      (defaultRepoPath W.home))),
    ("quantization_script", J.str (pyOrStr a.quantScript defaultQuantScriptRel)),
    ("quant_args", J.arr (a.quantArg.map J.str))]

/-- The profile branch of `handle_kv_calibrate` applied to the resolved
profile mapping: validate the `kv_calibration` section and resolve
`model_id` and `quant_args` from it.  The dead `cache_dir` conversion
(its result is overwritten before use) is kept for its `TypeError`
effect. -/
def kvSectionOfProfile (W : KvWorld) (pname : String) (profile : J) :
    Except String (String × J × J) :=
  match jget profile "kv_calibration" J.null with
  | J.obj kvs =>
      let sec := J.obj kvs
      let modelId := pyStrip (J.pyStr (jget sec "model_id" (J.str "")))
      if modelId.isEmpty then
        .error "kv_calibration.model_id must be provided"
      else
        match J.getStr (jget sec "cache_dir"
            (J.str ((List.lookup "MODELSCOPE_CACHE" W.osEnv).getD
              (defaultModelscopeCache W.home)))) with
        | .error e => .error e
        | .ok _ => .ok (modelId, sec, jget sec "quant_args" (J.arr []))
  | _ =>
      .error ("Profile \x27" ++ pname ++
        "\x27 missing \x27kv_calibration\x27 mapping")

/-- The `--profile`/`--model` branch of `handle_kv_calibrate`: resolve
`model_id`, the `section` mapping and `quant_args` via `ensure_profile`
when `--profile` is given. -/
def resolveKvSection (W : KvWorld) (profiles : List (String × J)) (a : KvArgs) :
    Except String (String × J × J) :=
  if optTruthy a.profile then
    match a.profile with
    | some pname =>
        match ensureProfile profiles pname with
        | .error e => .error e
        | .ok profile => kvSectionOfProfile W pname profile
    | none => .error "kv-calibrate requires --profile or --model"
  else
    match a.model with
    | some m =>
        let modelId := pyStrip m
        let sec := kvModelSection W a modelId
        .ok (modelId, sec, jget sec "quant_args" (J.arr []))
    | none => .error "kv-calibrate requires --profile or --model"

/-- `section.get("output", str(DEFAULT_KV_ROOT / KV_CACHE_FILENAME))`
converted by `Path(...)`. -/
def kvOutputPath (W : KvWorld) (sec : J) : Except String String :=
  J.getStr (jget sec "output"
    (J.str (joinPath (defaultKvRoot W.home) "kv_cache_scales.json")))

/-- `section.get("calib_data", ...)` converted by `Path(...)`. -/
def kvCalibPath (W : KvWorld) (sec : J) : Except String String :=
  J.getStr (jget sec "calib_data"
    (J.str (joinPath (joinPath (defaultKvRoot W.home) "calib") "snippets.jsonl")))

/-- `section.get("cache_dir", str(DEFAULT_MODELSCOPE_CACHE))` converted
by `Path(...)`. -/
def kvCacheDir (W : KvWorld) (sec : J) : Except String String :=
  J.getStr (jget sec "cache_dir" (J.str (defaultModelscopeCache W.home)))

/-- `section.get("llm_compressor_repo", ...)` converted by `Path(...)`. -/
def kvRepoPath (W : KvWorld) (sec : J) : Except String String :=
  J.getStr (jget sec "llm_compressor_repo" (J.str (defaultRepoPath W.home)))

/-- `section.get("quantization_script", ...)` joined under the repo by
`repo_path / ...`. -/
def kvScriptRel (sec : J) : Except String String :=
  J.getStr (jget sec "quantization_script" (J.str defaultQuantScriptRel))

/-- `int(section.get("samples", 512))`. -/
def kvSamples (sec : J) : Except String Int :=
  J.pyInt (jget sec "samples" (J.num 512))

/-- `int(section.get("seq_len", 4096))`. -/
def kvSeqLen (sec : J) : Except String Int :=
  J.pyInt (jget sec "seq_len" (J.num 4096))

/-- `str(section.get("dataset_prompt", ...))`. -/
def kvTemplate (sec : J) : String :=
  J.pyStr (jget sec "dataset_prompt" (J.str defaultPrompt))

/-- The `quant_args` validation: skipped when falsy, must be a sequence
of strings otherwise. -/
def kvQuantArgsList (qa : J) : Except String (List String) :=
  if J.truthy qa then
    seqOfStrings qa "kv_calibration.quant_args must be a sequence"
      "kv_calibration.quant_args entries must be strings"
  else .ok []

/-- The Podman volume events issued before the output check. -/
def kvVolumeEvs (a : KvArgs) (modelId : String) : List Ev :=
  if a.noVolumes then []
  else [Ev.ensureVolume (volumeName "model-" modelId),
        Ev.ensureVolume (volumeName "kv-" modelId)]

/-- The environment `handle_kv_calibrate` builds for the quantization
subprocess (the part feeding the three `_ensure_dir` calls). -/
def kvEnvAfterDefaults (W : KvWorld) (cacheS : String) :
    List (String × String) :=
  applyOfflineDefaults W.home (some cacheS)
    (assocSet (assocSet W.osEnv "MODELSCOPE_CACHE" cacheS) "MODELSCOPE_HOME" cacheS)

/-- The three `_ensure_dir(Path(env[key]))` events for `HF_HOME`,
`TRANSFORMERS_CACHE` and `HF_DATASETS_CACHE` (all present after
`_apply_offline_defaults`). -/
def kvHfDirEvs (W : KvWorld) (cacheS : String) : List Ev :=
  let env := kvEnvAfterDefaults W cacheS
  [Ev.ensureDir ((List.lookup "HF_HOME" env).getD ""),
   Ev.ensureDir ((List.lookup "TRANSFORMERS_CACHE" env).getD ""),
   Ev.ensureDir ((List.lookup "HF_DATASETS_CACHE" env).getD "")]

/-- The `_write_default_calib` events, when the calibration file is
missing. -/
def kvCalibEvs (sec : J) (calibS : String) (samples : Int)
    (fs1 : List String) : List Ev :=
  if fs1.contains calibS then []
  else [Ev.ensureDir (parentPath calibS),
        Ev.writeCalib calibS samples (kvTemplate sec)]

/-- The path list after the calibration-data step. -/
def kvFs2 (calibS : String) (fs1 : List String) : List String :=
  if fs1.contains calibS then fs1 else calibS :: parentPath calibS :: fs1

/-- The calibration-data step (`samples`/`dataset_prompt` are read only
when the file is missing, mirroring the code's laziness). -/
def kvCalibStep (sec : J) (calibS : String) (evs1 : List Ev)
    (fs1 : List String) : Except String (List Ev × List String) :=
  if fs1.contains calibS then .ok (evs1, fs1)
  else
    match kvSamples sec with
    | .error e => .error e
    | .ok samples =>
        .ok (evs1 ++ kvCalibEvs sec calibS samples fs1, kvFs2 calibS fs1)

/-- The `_ensure_llm_compressor` event: clone only when the repo path
does not exist. -/
def kvCloneEvs (repoS : String) (fs4 : List String) : List Ev :=
  if fs4.contains repoS then [] else [Ev.cloneRepo repoS]

/-- The path list after the clone step: a fresh clone provides the repo
directory and its files. -/
def kvFs5 (W : KvWorld) (repoS : String) (fs4 : List String) : List String :=
  if fs4.contains repoS then fs4
  else repoS :: (W.repoFiles.map (joinPath repoS)) ++ fs4

/-- The `_ensure_llm_compressor_runner` event. -/
def kvRunnerEvs (runnerS : String) (fs5 : List String) : List Ev :=
  if fs5.contains runnerS then [] else [Ev.writeRunner runnerS]

/-- The path list after the runner step. -/
def kvFs6 (runnerS : String) (fs5 : List String) : List String :=
  if fs5.contains runnerS then fs5 else runnerS :: fs5

/-- The `_install_llm_compressor_deps` subprocesses (unless
`--skip-deps`). -/
def kvPipEvs (a : KvArgs) (repoS : String) : List Ev :=
  if a.skipDeps then []
  else [Ev.pipUninstall, Ev.pipInstallPkgs, Ev.pipInstallEditable repoS,
        Ev.depsCheck]

/-- `handle_kv_calibrate` after section resolution (lines 959-1044):
every external effect is recorded as an event, and the path list is the
set of existing files/directories. -/
def kvBody (W : KvWorld) (a : KvArgs) (modelId : String) (sec quantArgs : J)
    (fs : List String) : List Ev × Except String Int :=
  let volEvs := kvVolumeEvs a modelId
  match kvOutputPath W sec with
  | .error e => (volEvs, .error e)
  | .ok outS =>
      let evs1 := volEvs ++ [Ev.ensureDir (parentPath outS)]
      let fs1 := parentPath outS :: fs
      if fs1.contains outS && !a.force then (evs1, .ok 0)
      else
        match kvCalibPath W sec with
        | .error e => (evs1, .error e)
        | .ok calibS =>
            match kvCalibStep sec calibS evs1 fs1 with
            | .error e => (evs1, .error e)
            | .ok (evs2, fs2) =>
                match kvCacheDir W sec with
                | .error e => (evs2, .error e)
                | .ok cacheS =>
                    let modelDir := W.modelDirFor modelId cacheS
                    let evs3 := evs2 ++ [Ev.ensureDir cacheS]
                    let fs3 := cacheS :: fs2
                    if modelDir.isEmpty then
                      (evs3, .error
                        ("ModelScope download returned empty path for " ++ modelId))
                    else
                      let evs4 := evs3 ++ [Ev.download modelId cacheS,
                        Ev.synthesize modelDir, Ev.writeMetadata cacheS]
                      let fs4 := modelDir :: fs3
                      match kvRepoPath W sec with
                      | .error e => (evs4, .error e)
                      | .ok repoS =>
                          let evs5 := evs4 ++ kvCloneEvs repoS fs4
                          let fs5 := kvFs5 W repoS fs4
                          let runnerS := joinPath repoS "_modelscope_runner.py"
                          let evs6 := evs5 ++ kvRunnerEvs runnerS fs5
                          let fs6 := kvFs6 runnerS fs5
                          let evs7 := evs6 ++ kvPipEvs a repoS
                          match kvSeqLen sec with
                          | .error e => (evs7, .error e)
                          | .ok seqLen =>
                              match kvScriptRel sec with
                              | .error e => (evs7, .error e)
                              | .ok rel =>
                                  let scriptS := joinPath repoS rel
                                  if !fs6.contains scriptS then
                                    (evs7, .error
                                      ("Quantization script not found: " ++ scriptS))
                                  else
                                    match kvQuantArgsList quantArgs with
                                    | .error e => (evs7, .error e)
                                    | .ok qlist =>
                                        (evs7 ++ kvHfDirEvs W cacheS ++
                                          [Ev.runQuant runnerS scriptS modelDir
                                            outS seqLen calibS qlist], .ok 0)

/-- `handle_kv_calibrate`. -/
def handleKvCalibrate (W : KvWorld) (profiles : List (String × J)) (a : KvArgs)
    (fs : List String) : List Ev × Except String Int :=
  if !optTruthy a.profile && !optTruthy a.model then
    ([], .error "kv-calibrate requires --profile or --model")
  else
    match resolveKvSection W profiles a with
    | .error e => ([], .error e)
    | .ok (modelId, sec, qa) => kvBody W a modelId sec qa fs

/-- Event classifiers used by the ordering statements. -/
def Ev.isDownload : Ev → Bool
  | .download _ _ => true
  | _ => false

/-- Is this event the synthesis step? -/
def Ev.isSynthesize : Ev → Bool
  | .synthesize _ => true
  | _ => false

/-- Is this event the clone step? -/
def Ev.isClone : Ev → Bool
  | .cloneRepo _ => true
  | _ => false

/-- Is this event one of the dependency-installation subprocesses? -/
def Ev.isPip : Ev → Bool
  | .pipUninstall => true
  | .pipInstallPkgs => true
  | .pipInstallEditable _ => true
  | .depsCheck => true
  | _ => false

/-- Is this event the quantization subprocess? -/
def Ev.isQuant : Ev → Bool
  | .runQuant _ _ _ _ _ _ _ => true
  | _ => false

/-- Is this event a calibration-data write? -/
def Ev.isWriteCalib : Ev → Bool
  | .writeCalib _ _ _ => true
  | _ => false

end Manage

/-!
Concrete fixtures used by the witness theorems.
-/

namespace RunTests

/-- A world where every command completes immediately with return code
0. -/
def w0 : World where
  exec := fun _ _ _ => .completed 0 3 "" ""
  stamp := fun _ _ => "T"

/-- A world where the only command times out (with a configured
timeout). -/
def w1 : World where
  exec := fun _ _ t =>
    match t with
    | some _ => .timedOut
    | none => .completed 1 2 "" "boom"
  stamp := fun _ _ => "T"

/-- A one-command suite configuration. -/
def cfg0 : J := J.obj [("commands", J.arr [J.obj [("cmd", J.str "true")]])]

/-- A one-command suite whose command has a 5 second timeout. -/
def cfg1 : J :=
  J.obj [("commands",
    J.arr [J.obj [("cmd", J.str "sleep 99"), ("timeout", J.num 5)]])]

/-- A matrix holding the two suites above. -/
def m0 : J :=
  J.obj [("suites", J.obj [("a", cfg0), ("b", cfg1)]),
         ("default_suites", J.arr [J.str "a", J.str "b"])]

end RunTests

namespace CompareResults

/-- Baseline results: one passing, one failing entry. -/
def base0 : Index :=
  [(("s", "x"), J.obj [("status", J.str "passed"), ("duration_s", J.num 1)]),
   (("s", "y"), J.obj [("status", J.str "failed"), ("duration_s", J.num 2)])]

/-- Patched results: the passing entry regressed, the failing one is
gone, and a new entry appeared. -/
def patch0 : Index :=
  [(("s", "x"), J.obj [("status", J.str "timeout"), ("duration_s", J.num 9)]),
   (("s", "z"), J.obj [("status", J.str "passed"), ("duration_s", J.num 1)])]

end CompareResults

namespace Manage

/-- A two-profile configuration mapping. -/
def profiles0 : List (String × J) :=
  [("beta", J.obj [("serve", J.obj [("entrypoint", J.str "vllm serve")])]),
   ("alpha", J.obj [])]

/-- A model directory whose `added_tokens.json` is in list form. -/
def dir0 : Dir := [("added_tokens.json", some (J.arr [J.str "a"]))]

/-- A model directory with a pre-existing `special_tokens_map.json`. -/
def dir1 : Dir := [("special_tokens_map.json", some (J.obj [("x", J.num 1)]))]

/-- An oracle world for `kv-calibrate` with a clonable repository that
contains the default quantization script. -/
def kvW0 : KvWorld where
  home := "/root"
  osEnv := []
  modelDirFor := fun _ _ => "/root/.cache/modelscope/m/snap"
  repoFiles := [defaultQuantScriptRel, "src"]

/-- The same world with a repository that lacks the quantization
script. -/
def kvW1 : KvWorld where
  home := "/root"
  osEnv := []
  modelDirFor := fun _ _ => "/root/.cache/modelscope/m/snap"
  repoFiles := ["src"]

/-- An ad-hoc `--model m` invocation. -/
def kvArgs0 : KvArgs := { model := some "m" }

/-- The section the `--model m` invocation builds. -/
def kvSec0 : J := kvModelSection kvW0 kvArgs0 "m"

/-- Resolved output path of the `--model m` invocation. -/
def kvOut0 : String := "/root/kvdata/m/kv_cache_scales.json"

/-- Resolved calibration-data path. -/
def kvCalib0 : String := "/root/kvdata/m/calib/snippets.jsonl"

/-- Resolved cache directory. -/
def kvCache0 : String := "/root/.cache/modelscope/m"

/-- Resolved llm-compressor checkout path. -/
def kvRepo0 : String := "/root/.local/share/llm-compressor"

end Manage

/-!
## Theorems
-/

/-- Induction principle for `J` exposing the nested lists memberwise. -/
theorem J.ind {P : J → Prop} (hnull : P .null) (hbool : ∀ b, P (.bool b))
    (hnum : ∀ n, P (.num n)) (hstr : ∀ s, P (.str s))
    (harr : ∀ xs, (∀ x ∈ xs, P x) → P (.arr xs))
    (hobj : ∀ kvs, (∀ kv ∈ kvs, P (Prod.snd kv)) → P (.obj kvs)) :
    ∀ j, P j :=
  fun j =>
    @J.rec P (fun xs => ∀ x ∈ xs, P x) (fun kvs => ∀ kv ∈ kvs, P kv.2)
      (fun kv => P kv.2)
      hnull hbool hnum hstr harr hobj
      (fun x hx => absurd hx (List.not_mem_nil x))
      (fun x xs hx hxs y hy => by
        rcases List.mem_cons.mp hy with h | h
        · cases h; exact hx
        · exact hxs y h)
      (fun kv hkv => absurd hkv (List.not_mem_nil kv))
      (fun kv kvs hkv hkvs y hy => by
        rcases List.mem_cons.mp hy with h | h
        · cases h; exact hkv
        · exact hkvs y h)
      (fun _ v hv => hv)
      j

theorem J.beq_iff : ∀ a b : J, J.beq a b = true ↔ a = b := by
  intro a
  induction a using J.ind with
  | hnull => intro b; cases b <;> simp [J.beq]
  | hbool x => intro b; cases b <;> simp [J.beq]
  | hnum x => intro b; cases b <;> simp [J.beq]
  | hstr x => intro b; cases b <;> simp [J.beq]
  | harr xs ih =>
      intro b
      cases b <;> simp only [J.beq] <;> try simp
      rename_i ys
      constructor
      · intro h
        suffices h' : ∀ ys, J.beq.beqList xs ys = true → xs = ys by
          simpa using h' ys h
        clear h ys
        induction xs with
        | nil => intro ys h; cases ys <;> simp_all [J.beq.beqList]
        | cons x xs ihx =>
            intro ys h
            cases ys with
            | nil => simp [J.beq.beqList] at h
            | cons y ys =>
                simp only [J.beq.beqList, Bool.and_eq_true] at h
                have hx := (ih x (by simp) y).mp h.1
                have hxs := ihx (fun z hz => ih z (by simp [hz])) ys h.2
                simp [hx, hxs]
      · rintro rfl
        induction xs with
        | nil => simp [J.beq.beqList]
        | cons x xs ihx =>
            simp only [J.beq.beqList, Bool.and_eq_true]
            exact ⟨(ih x (by simp) x).mpr rfl, ihx (fun z hz => ih z (by simp [hz]))⟩
  | hobj kvs ih =>
      intro b
      cases b <;> simp only [J.beq] <;> try simp
      rename_i ys
      constructor
      · intro h
        suffices h' : ∀ ys, J.beq.beqKVs kvs ys = true → kvs = ys by
          simpa using h' ys h
        clear h ys
        induction kvs with
        | nil => intro ys h; cases ys <;> simp_all [J.beq.beqKVs]
        | cons kv kvs ihx =>
            intro ys h
            cases ys with
            | nil => obtain ⟨k, v⟩ := kv; simp [J.beq.beqKVs] at h
            | cons kv' ys =>
                obtain ⟨k, v⟩ := kv
                obtain ⟨k', v'⟩ := kv'
                simp only [J.beq.beqKVs, Bool.and_eq_true] at h
                have hk : k = k' := by simpa using h.1.1
                have hv : v = v' := (ih (k, v) (by simp) v').mp h.1.2
                have hrest := ihx (fun z hz => ih z (by simp [hz])) ys h.2
                simp [hk, hv, hrest]
      · rintro rfl
        induction kvs with
        | nil => simp [J.beq.beqKVs]
        | cons kv kvs ihx =>
            obtain ⟨k, v⟩ := kv
            simp only [J.beq.beqKVs, Bool.and_eq_true]
            refine ⟨⟨by simp, (ih (k, v) (by simp) v).mpr rfl⟩,
              ihx (fun z hz => ih z (by simp [hz]))⟩


/-- Looking up a key right after storing it. -/
theorem objSet_lookup (l : List (String × J)) (k : String) (v : J) :
    List.lookup k (J.objSet l k v) = some v := by
  induction l with
  | nil => simp [J.objSet, List.lookup]
  | cons kv rest ih =>
      obtain ⟨k', v'⟩ := kv
      by_cases h : k' = k
      · subst h
        simp [J.objSet, List.lookup]
      · simp only [J.objSet, if_neg h, List.lookup]
        have : (k == k') = false := by
          simp [Ne.symm h]
        simp [this, ih]

namespace RunTests

/-- Field facts about the record produced by one iteration of
`run_suite`'s loop. -/
theorem processItem_ok_spec {w : World} {sN p : String} {idx : Nat} {item : J}
    {r : Record} (h : processItem w sN p idx item = .ok r) :
    (r.status = "passed" ∨ r.status = "failed" ∨ r.status = "timeout") ∧
    (r.status = "passed" ↔ r.returncode = J.num 0) ∧
    (r.status = "failed" ↔ ∃ c, c ≠ 0 ∧ r.returncode = J.num c) ∧
    (r.status = "timeout" ↔ r.returncode = J.null) ∧
    (r.status = "timeout" →
      ∃ tOpt, itemTimeout item = .ok tOpt ∧ w.exec sN idx tOpt = .timedOut ∧
        r.duration = (match tOpt with | some t => J.num t | none => J.null)) := by
  cases item with
  | obj kvs =>
      simp only [processItem] at h
      rcases hc : itemCmd sN idx (J.obj kvs) with ec | command <;> rw [hc] at h
      · cases h
      rcases hwd : itemWorkdir sN idx (J.obj kvs) with ew | wd <;> rw [hwd] at h
      · cases h
      rcases he : itemEnv sN idx (J.obj kvs) with ee | env <;> rw [he] at h
      · cases h
      rcases ht : itemTimeout (J.obj kvs) with et | timeout <;> rw [ht] at h
      · cases h
      dsimp only at h
      cases hx : w.exec sN idx timeout with
      | completed rc dur out err =>
        rw [hx] at h
        dsimp only at h
        cases h
        by_cases hrc : rc = 0
        · subst hrc
          exact ⟨Or.inl (by simp), by simp, by simp, by simp, by simp⟩
        · refine ⟨Or.inr (Or.inl (by simp [hrc])), by simp [hrc], ?_,
            by simp [hrc], by simp [hrc]⟩
          constructor
          · intro _; exact ⟨rc, hrc, rfl⟩
          · intro _; simp [hrc]
      | timedOut =>
        rw [hx] at h
        dsimp only at h
        cases h
        refine ⟨Or.inr (Or.inr rfl), by simp, by simp, by simp, ?_⟩
        intro _
        exact ⟨timeout, rfl, hx, rfl⟩
  | null => exact absurd h (by simp [processItem])
  | bool b => exact absurd h (by simp [processItem])
  | num n => exact absurd h (by simp [processItem])
  | str s => exact absurd h (by simp [processItem])
  | arr xs => exact absurd h (by simp [processItem])

/-- `run_suite`'s loop produces exactly one record per command entry, in
order: the record at position `i` is the one `processItem` builds from
the entry at position `i`. -/
theorem runItems_spec (w : World) (sN p : String) :
    ∀ (idx : Nat) (items : List J) (results : List Record),
      runItems w sN p idx items = .ok results →
      results.length = items.length ∧
      ∀ i (hi : i < items.length) (hr : i < results.length),
        processItem w sN p (idx + i) (items.get ⟨i, hi⟩) =
          .ok (results.get ⟨i, hr⟩) := by
  intro idx items
  induction items generalizing idx with
  | nil =>
      intro results h
      simp only [runItems] at h
      cases h
      exact ⟨rfl, fun i hi hr => absurd hi (by simp)⟩
  | cons item rest ih =>
      intro results h
      simp only [runItems] at h
      rcases hp : processItem w sN p idx item with ep | r <;> rw [hp] at h
      · cases h
      rcases hr : runItems w sN p (idx + 1) rest with er | rs <;> rw [hr] at h
      · cases h
      cases h
      obtain ⟨hlen, hspec⟩ := ih (idx + 1) rs hr
      refine ⟨by simp [hlen], ?_⟩
      intro i hi hri
      cases i with
      | zero => simpa using hp
      | succ n =>
          have hn : n < rest.length := by simpa using hi
          have hrn : n < rs.length := by simpa using hri
          have := hspec n hn hrn
          have harith : idx + 1 + n = idx + (n + 1) := by omega
          simpa [harith] using this

end RunTests

namespace RunTests

/-- C1: for every command executed by `run_tests.py`'s `run_suite`, the
result record's `status` is exactly one of "passed", "failed", "timeout";
it is "passed" iff the subprocess return code is 0, "failed" iff the
return code is nonzero, and "timeout" iff the command raised
`TimeoutExpired`, in which case `returncode` is null and `duration_s`
equals the configured timeout; the full list of records is serialized to
the JSON results file by `write_results`. -/
theorem c1_run_suite_status_and_serialization
    (w : World) (hw : w.lawfulTimeout) (suiteName profile : String)
    (cfg : J) (items : List J) (results : List Record)
    (hitems : seqItems ((J.objGet cfg "commands").getD J.null) = some items)
    (hrun : runSuite w suiteName cfg profile = .ok results) :
    (∀ r ∈ results,
      (r.status = "passed" ∨ r.status = "failed" ∨ r.status = "timeout") ∧
      (r.status = "passed" ↔ r.returncode = J.num 0) ∧
      (r.status = "failed" ↔ ∃ c, c ≠ 0 ∧ r.returncode = J.num c) ∧
      (r.status = "timeout" ↔ r.returncode = J.null)) ∧
    (∀ i (hr : i < results.length) (hi : i < items.length),
      (results.get ⟨i, hr⟩).status = "timeout" →
      ∃ t, itemTimeout (items.get ⟨i, hi⟩) = .ok (some t) ∧
        (results.get ⟨i, hr⟩).duration = J.num t) ∧
    (∀ fs path,
      List.lookup path (writeResults fs path results) =
        some (J.arr (results.map recordToJ))) := by
  have hloop : runItems w suiteName profile 0 items = .ok results := by
    unfold runSuite at hrun
    rw [hitems] at hrun
    exact hrun
  obtain ⟨hlen, hspec⟩ := runItems_spec w suiteName profile 0 items results hloop
  refine ⟨?_, ?_, ?_⟩
  · intro r hrmem
    obtain ⟨⟨i, hi⟩, rfl⟩ := List.mem_iff_get.mp hrmem
    have hii : i < items.length := by omega
    have h := processItem_ok_spec (hspec i hii hi)
    exact ⟨h.1, h.2.1, h.2.2.1, h.2.2.2.1⟩
  · intro i hr hi hto
    have h := processItem_ok_spec (hspec i hi hr)
    obtain ⟨tOpt, hitem, hexec, hdur⟩ := h.2.2.2.2 hto
    cases tOpt with
    | none => exact absurd hexec (hw suiteName (0 + i))
    | some t => exact ⟨t, hitem, hdur⟩
  · intro fs path
    exact objSet_lookup fs path (J.arr (results.map recordToJ))

/-- Witness for C1: a concrete one-command suite run in a world where the
command completes with return code 0. -/
theorem c1_witness :
    ∃ results, runSuite w0 "s" cfg0 "p" = .ok results ∧
      ((∀ r ∈ results,
        (r.status = "passed" ∨ r.status = "failed" ∨ r.status = "timeout") ∧
        (r.status = "passed" ↔ r.returncode = J.num 0) ∧
        (r.status = "failed" ↔ ∃ c, c ≠ 0 ∧ r.returncode = J.num c) ∧
        (r.status = "timeout" ↔ r.returncode = J.null)) ∧
      (∀ i (hr : i < results.length)
          (hi : i < [J.obj [("cmd", J.str "true")]].length),
        (results.get ⟨i, hr⟩).status = "timeout" →
        ∃ t, itemTimeout ([J.obj [("cmd", J.str "true")]].get ⟨i, hi⟩) =
            .ok (some t) ∧
          (results.get ⟨i, hr⟩).duration = J.num t) ∧
      (∀ fs path,
        List.lookup path (writeResults fs path results) =
          some (J.arr (results.map recordToJ)))) :=
  ⟨_, rfl, c1_run_suite_status_and_serialization w0
    (fun _ _ h => ExecOutcome.noConfusion h) "s" "p" cfg0
    [J.obj [("cmd", J.str "true")]] _ rfl rfl⟩

/-- C6: `run_tests.py` executes each configured command exactly once and
in order: for every suite the results list has exactly one record per
entry of the `commands` sequence, the record at position `k` being the
one built from entry `k`, and the combined results are the concatenation
of the per-suite results in the order the suites were selected. -/
theorem c6_one_record_per_command_in_order
    (w : World) (profile : String) (suitesCfg : J) :
    ∀ (selected : List J) (results : List Record),
      runSelected w suitesCfg profile selected = .ok results →
      ∃ parts : List (List Record),
        parts.length = selected.length ∧
        results = parts.flatten ∧
        ∀ i (hi : i < selected.length) (hp : i < parts.length),
          ∃ name cfg items,
            selected.get ⟨i, hi⟩ = J.str name ∧
            J.objGet suitesCfg name = some cfg ∧
            runSuite w name cfg profile = .ok (parts.get ⟨i, hp⟩) ∧
            seqItems ((J.objGet cfg "commands").getD J.null) = some items ∧
            (parts.get ⟨i, hp⟩).length = items.length ∧
            ∀ k (hk : k < items.length) (hk' : k < (parts.get ⟨i, hp⟩).length),
              processItem w name profile k (items.get ⟨k, hk⟩) =
                .ok ((parts.get ⟨i, hp⟩).get ⟨k, hk'⟩) := by
  intro selected
  induction selected with
  | nil =>
      intro results h
      simp only [runSelected] at h
      cases h
      exact ⟨[], rfl, rfl, fun i hi => absurd hi (by simp)⟩
  | cons s rest ih =>
      intro results h
      simp only [runSelected] at h
      cases s with
      | str name =>
          dsimp only at h
          rcases hcfg : J.objGet suitesCfg name with _ | cfg <;>
            rw [hcfg] at h <;> (try dsimp only at h)
          · cases h
          cases cfg <;> (try dsimp only at h)
          case str.some.obj kvs =>
              rcases hrs : runSuite w name (J.obj kvs) profile with e | rs <;>
                rw [hrs] at h <;> (try dsimp only at h)
              · cases h
              rcases hrest : runSelected w suitesCfg profile rest with e | more <;>
                rw [hrest] at h <;> (try dsimp only at h)
              · cases h
              cases h
              obtain ⟨parts, hplen, hmore, hpspec⟩ := ih more hrest
              have hsuite := hrs
              unfold runSuite at hsuite
              rcases hit : seqItems ((J.objGet (J.obj kvs) "commands").getD J.null)
                with _ | items <;> rw [hit] at hsuite
              · cases hsuite
              obtain ⟨hslen, hsspec⟩ :=
                runItems_spec w name profile 0 items rs hsuite
              refine ⟨rs :: parts, by simp [hplen], by simp [hmore], ?_⟩
              intro i hi hp
              cases i with
              | zero =>
                  refine ⟨name, J.obj kvs, items, rfl, hcfg, hrs, hit, hslen, ?_⟩
                  intro k hk hk'
                  simpa using hsspec k hk hk'
              | succ n =>
                  have hn : n < rest.length := by simpa using hi
                  have hpn : n < parts.length := by simpa using hp
                  simpa using hpspec n hn hpn
          all_goals cases h
      | null => cases h
      | bool b => cases h
      | num n => cases h
      | arr xs => cases h
      | obj kvs => cases h

/-- Witness for C6: two selected one-command suites. -/
theorem c6_witness :
    ∃ results,
      runSelected w0 (J.obj [("a", cfg0), ("b", cfg1)]) "p"
        [J.str "a", J.str "b"] = .ok results ∧
      ∃ parts : List (List Record),
        parts.length = [J.str "a", J.str "b"].length ∧
        results = parts.flatten ∧
        ∀ i (hi : i < [J.str "a", J.str "b"].length) (hp : i < parts.length),
          ∃ name cfg items,
            [J.str "a", J.str "b"].get ⟨i, hi⟩ = J.str name ∧
            J.objGet (J.obj [("a", cfg0), ("b", cfg1)]) name = some cfg ∧
            runSuite w0 name cfg "p" = .ok (parts.get ⟨i, hp⟩) ∧
            seqItems ((J.objGet cfg "commands").getD J.null) = some items ∧
            (parts.get ⟨i, hp⟩).length = items.length ∧
            ∀ k (hk : k < items.length) (hk' : k < (parts.get ⟨i, hp⟩).length),
              processItem w0 name "p" k (items.get ⟨k, hk⟩) =
                .ok ((parts.get ⟨i, hp⟩).get ⟨k, hk'⟩) :=
  ⟨_, rfl, c6_one_record_per_command_in_order w0 "p"
    (J.obj [("a", cfg0), ("b", cfg1)]) [J.str "a", J.str "b"] _ rfl⟩

/-- C8: `main` returns exit code 0 iff every result record across the
selected suites has status "passed" (1 otherwise), and in both cases the
JSON results file has been written and the summary lines emitted by the
time the code is returned. -/
theorem c8_exit_code_iff_all_passed
    (w : World) (matrix : J) (profile : String)
    (suitesArg : Option (List String)) (outPath : String)
    (fs fs' : List (String × J)) (printed : List String) (code : Int)
    (h : mainRun w matrix profile suitesArg outPath fs =
      .ok (fs', printed, code)) :
    ∃ suitesKvs selected results,
      J.objGet matrix "suites" = some (J.obj suitesKvs) ∧
      collectSuites matrix profile suitesArg = .ok selected ∧
      runSelected w (J.obj suitesKvs) profile selected = .ok results ∧
      (code = 0 ↔ ∀ r ∈ results, r.status = "passed") ∧
      (code = 0 ∨ code = 1) ∧
      List.lookup outPath fs' = some (J.arr (results.map recordToJ)) ∧
      printed = ("[results] wrote " ++ outPath) :: summaryLines results := by
  cases matrix with
  | obj mkvs =>
      simp only [mainRun] at h
      rcases hsc : J.objGet (J.obj mkvs) "suites" with _ | sc <;> rw [hsc] at h
      · cases h
      cases sc with
      | obj skvs =>
          rcases hcol : collectSuites (J.obj mkvs) profile suitesArg
            with e | selected <;> rw [hcol] at h <;> dsimp only at h
          · cases h
          rcases hrun : runSelected w (J.obj skvs) profile selected
            with e | results <;> rw [hrun] at h <;> dsimp only at h
          · cases h
          cases h
          refine ⟨skvs, selected, results, rfl, rfl, hrun, ?_, ?_, ?_, rfl⟩
          · by_cases hall : results.all (fun r => r.status == "passed")
            · have hforall : ∀ r ∈ results, r.status = "passed" := by
                intro r hr
                simpa using List.all_eq_true.mp hall r hr
              constructor
              · intro _; exact hforall
              · intro _; simp [hall]
            · have hnot : ¬ ∀ r ∈ results, r.status = "passed" := by
                intro hforall
                exact hall (List.all_eq_true.mpr
                  (fun r hr => by simpa using hforall r hr))
              simp [hall, hnot]
          · by_cases hall : results.all (fun r => r.status == "passed") <;>
              simp [hall]
          · exact objSet_lookup fs outPath (J.arr (results.map recordToJ))
      | null => cases h
      | bool b => cases h
      | num n => cases h
      | str s => cases h
      | arr xs => cases h
  | null => cases h
  | bool b => cases h
  | num n => cases h
  | str s => cases h
  | arr xs => cases h

/-- Witness for C8: the two-suite matrix, everything passing. -/
theorem c8_witness :
    ∃ (fsw : List (String × J)) (printed : List String) (code : Int),
      mainRun w0 m0 "p" none "out.json" [] = .ok (fsw, printed, code) ∧
      ∃ suitesKvs selected results,
        J.objGet m0 "suites" = some (J.obj suitesKvs) ∧
        collectSuites m0 "p" none = .ok selected ∧
        runSelected w0 (J.obj suitesKvs) "p" selected = .ok results ∧
        (code = 0 ↔ ∀ r ∈ results, r.status = "passed") ∧
        (code = 0 ∨ code = 1) ∧
        List.lookup "out.json" fsw = some (J.arr (results.map recordToJ)) ∧
        printed = ("[results] wrote out.json") :: summaryLines results :=
  ⟨_, _, _, rfl, c8_exit_code_iff_all_passed w0 m0 "p" none "out.json"
    [] _ _ _ rfl⟩

end RunTests

instance : LawfulBEq J where
  eq_of_beq h := (J.beq_iff _ _).mp h
  rfl := (J.beq_iff _ _).mpr rfl

namespace CompareResults

/-- Per-key accounting of `compare`'s loop body: the contributed
regression count matches the claim's condition, and a key absent from
the baseline is reported as added. -/
theorem compareKey_count (base patch : Index) (k : String × String)
    (ls : List Line) (n : Nat) (h : compareKey base patch k = .ok (ls, n)) :
    n = (if regressionClaim base patch k then 1 else 0) ∧
    (look base k = none → ls = [.added k]) := by
  unfold compareKey at h
  rcases hb : look base k with _ | b <;> rw [hb] at h <;> dsimp only at h
  · cases h
    exact ⟨by simp [regressionClaim, hb], fun _ => rfl⟩
  rcases hp : look patch k with _ | p <;> rw [hp] at h <;> dsimp only at h
  · cases h
    refine ⟨by simp [regressionClaim, hb, hp], ?_⟩
    intro hcon
    exact Option.noConfusion hcon
  rcases hbd : pyFloat (jget b "duration_s" (J.num 0)) with e | bd <;>
    rw [hbd] at h <;> dsimp only at h
  · cases h
  rcases hpd : pyFloat (jget p "duration_s" (J.num 0)) with e | pd <;>
    rw [hpd] at h <;> dsimp only at h
  · cases h
  refine ⟨?_, ?_⟩
  · by_cases hA : (J.objGet b "status") == (J.objGet p "status") <;>
      by_cases hB : (J.objGet p "status") == some (J.str "passed") <;>
      simp only [hA, hB, Bool.and_self, Bool.and_false, Bool.and_true,
        Bool.false_and, Bool.true_and, Bool.not_true, Bool.not_false,
        if_true, if_false, Bool.false_eq_true, reduceIte] at h <;>
      cases h <;>
      simp [regressionClaim, hb, hp, hA, hB]
  · intro hcon
    exact Option.noConfusion hcon

/-- Loop-level accounting: the regression counter equals the number of
visited keys satisfying the claim's condition, and every visited key
absent from the baseline shows up as an added report. -/
theorem compareLoop_spec (base patch : Index) :
    ∀ (ks : List (String × String)) (ls : List Line) (n : Nat),
      compareLoop base patch ks = .ok (ls, n) →
      n = ks.countP (fun k => regressionClaim base patch k) ∧
      ∀ k ∈ ks, look base k = none → Line.added k ∈ ls := by
  intro ks
  induction ks with
  | nil =>
      intro ls n h
      cases h
      exact ⟨rfl, fun k hk => absurd hk (by simp)⟩
  | cons k ks ih =>
      intro ls n h
      simp only [compareLoop] at h
      rcases hk : compareKey base patch k with e | pr <;> rw [hk] at h <;>
        dsimp only at h
      · cases h
      obtain ⟨lsk, nk⟩ := pr
      rcases hrest : compareLoop base patch ks with e | pr' <;> rw [hrest] at h <;>
        dsimp only at h
      · cases h
      obtain ⟨ls', n'⟩ := pr'
      cases h
      obtain ⟨hnk, hadd⟩ := compareKey_count base patch k lsk nk hk
      obtain ⟨hn', hmem⟩ := ih ls' n' hrest
      constructor
      · rw [List.countP_cons]
        subst hnk hn'
        by_cases hreg : regressionClaim base patch k
        · simp [hreg]
          omega
        · simp [hreg]
      · intro k' hk' hnone
        rcases List.mem_cons.mp hk' with rfl | hmem'
        · rw [hadd hnone]
          simp
        · exact List.mem_append_right _ (hmem k' hmem' hnone)

/-- C4: `compare` counts a `(suite, name)` key as a regression exactly
when the key is in the baseline but missing in the patched results, or
both runs have the key with differing statuses, or both have it with the
same non-"passed" status; a key passing in both runs is never counted,
and a key present only in the patched results is reported as added and
not counted. -/
theorem c4_compare_regression_condition (base patch : Index)
    (ls : List Line) (n : Nat)
    (h : compareRun base patch = .ok (ls, n)) :
    n = (unionKeys base patch).countP
      (fun k => regressionClaim base patch k) ∧
    (∀ k, regressionClaim base patch k = true ↔
      ((∃ b, look base k = some b) ∧ look patch k = none) ∨
      (∃ b p, look base k = some b ∧ look patch k = some p ∧
        J.objGet b "status" ≠ J.objGet p "status") ∨
      (∃ b p, look base k = some b ∧ look patch k = some p ∧
        J.objGet b "status" = J.objGet p "status" ∧
        J.objGet p "status" ≠ some (J.str "passed"))) ∧
    (∀ k b p, look base k = some b → look patch k = some p →
      J.objGet b "status" = some (J.str "passed") →
      J.objGet p "status" = some (J.str "passed") →
      regressionClaim base patch k = false) ∧
    (∀ k, look base k = none →
      regressionClaim base patch k = false ∧
      (k ∈ unionKeys base patch → Line.added k ∈ ls)) := by
  obtain ⟨hn, hadd⟩ := compareLoop_spec base patch (unionKeys base patch) ls n h
  refine ⟨hn, ?_, ?_, ?_⟩
  · intro k
    unfold regressionClaim
    rcases hb : look base k with _ | b <;> rcases hp : look patch k with _ | p <;>
      dsimp only
    · simp
    · simp
    · simp [hb]
    · by_cases hA : (J.objGet b "status") == (J.objGet p "status") <;>
        by_cases hB : (J.objGet p "status") == some (J.str "passed")
      · have hA' := beq_iff_eq.mp hA
        have hB' := beq_iff_eq.mp hB
        simp [hA, hB, hA', hB']
      · have hA' := beq_iff_eq.mp hA
        have hB' : J.objGet p "status" ≠ some (J.str "passed") := by
          intro hcon
          exact absurd (beq_iff_eq.mpr hcon) (by simpa using hB)
        simp [hA, hB, hA', hB']
      · have hA' : J.objGet b "status" ≠ J.objGet p "status" := by
          intro hcon
          exact absurd (beq_iff_eq.mpr hcon) (by simpa using hA)
        simp [hA, hA']
      · have hA' : J.objGet b "status" ≠ J.objGet p "status" := by
          intro hcon
          exact absurd (beq_iff_eq.mpr hcon) (by simpa using hA)
        simp [hA, hA']
  · intro k b p hb hp hbs hps
    unfold regressionClaim
    rw [hb, hp]
    dsimp only
    have h1 : (J.objGet b "status" == J.objGet p "status") = true := by
      rw [hbs, hps]
      exact beq_iff_eq.mpr rfl
    have h2 : (J.objGet p "status" == some (J.str "passed")) = true := by
      rw [hps]
      exact beq_iff_eq.mpr rfl
    simp [h1, h2]
  · intro k hnone
    constructor
    · unfold regressionClaim
      rw [hnone]
    · intro hmem
      exact hadd k hmem hnone

/-- Witness for C4 on concrete baseline/patched indexes containing a
status regression, a missing key and an added key. -/
theorem c4_witness :
    ∃ (ls : List Line) (n : Nat),
      compareRun base0 patch0 = .ok (ls, n) ∧
      n = (unionKeys base0 patch0).countP
        (fun k => regressionClaim base0 patch0 k) ∧
      (∀ k, regressionClaim base0 patch0 k = true ↔
        ((∃ b, look base0 k = some b) ∧ look patch0 k = none) ∨
        (∃ b p, look base0 k = some b ∧ look patch0 k = some p ∧
          J.objGet b "status" ≠ J.objGet p "status") ∨
        (∃ b p, look base0 k = some b ∧ look patch0 k = some p ∧
          J.objGet b "status" = J.objGet p "status" ∧
          J.objGet p "status" ≠ some (J.str "passed"))) ∧
      (∀ k b p, look base0 k = some b → look patch0 k = some p →
        J.objGet b "status" = some (J.str "passed") →
        J.objGet p "status" = some (J.str "passed") →
        regressionClaim base0 patch0 k = false) ∧
      (∀ k, look base0 k = none →
        regressionClaim base0 patch0 k = false ∧
        (k ∈ unionKeys base0 patch0 → Line.added k ∈ ls)) :=
  ⟨_, _, rfl, c4_compare_regression_condition base0 patch0 _ _ rfl⟩

end CompareResults

/-- A key absent from an association list's keys has no lookup result. -/
theorem lookup_eq_none_of_not_mem {β : Type} (l : List (String × β))
    (k : String) (h : k ∉ l.map Prod.fst) : List.lookup k l = none := by
  induction l with
  | nil => rfl
  | cons kv rest ih =>
      obtain ⟨k', v'⟩ := kv
      simp only [List.map_cons, List.mem_cons] at h
      push_neg at h
      have hne : (k == k') = false := by simp [h.1]
      simp [List.lookup, hne, ih h.2]

/-- A key among an association list's keys has a lookup result. -/
theorem lookup_isSome_of_mem {β : Type} (l : List (String × β))
    (k : String) (h : k ∈ l.map Prod.fst) :
    ∃ v, List.lookup k l = some v := by
  induction l with
  | nil => simp at h
  | cons kv rest ih =>
      obtain ⟨k', v'⟩ := kv
      by_cases hk : k = k'
      · subst hk
        exact ⟨v', by simp [List.lookup]⟩
      · have hne : (k == k') = false := by simp [hk]
        simp only [List.map_cons, List.mem_cons] at h
        rcases h with h | h
        · exact absurd h hk
        · obtain ⟨v, hv⟩ := ih h
          exact ⟨v, by simp [List.lookup, hne, hv]⟩

namespace Manage

/-- C5: profiles are read from the parsed YAML `profiles` mapping.  For
a name absent from it, `ensure_profile` (and with it `handle_serve` and
the `--profile` branch of `handle_kv_calibrate`) exits with the error
listing the available profile names in sorted order; for a present name
it returns that profile's mapping, from which `handle_serve` builds the
serve command and environment and `handle_kv_calibrate` takes the
`kv_calibration` parameters. -/
theorem c5_ensure_profile_lookup
    (profiles : List (String × J)) (name : String)
    (split : String → List String) (home : String)
    (osEnv : List (String × String)) (extraArgs envOverrides : List String) :
    (name ∉ profiles.map Prod.fst →
      ensureProfile profiles name =
        .error ("Unknown profile \x27" ++ name ++ "\x27. Available: " ++
          String.intercalate ", " (sortStrs (profiles.map Prod.fst))) ∧
      handleServe split home osEnv profiles name extraArgs envOverrides =
        .error ("Unknown profile \x27" ++ name ++ "\x27. Available: " ++
          String.intercalate ", " (sortStrs (profiles.map Prod.fst))) ∧
      (∀ (W : KvWorld) (a : KvArgs), a.profile = some name →
        optTruthy a.profile = true →
        resolveKvSection W profiles a =
          .error ("Unknown profile \x27" ++ name ++ "\x27. Available: " ++
            String.intercalate ", " (sortStrs (profiles.map Prod.fst))))) ∧
    (name ∈ profiles.map Prod.fst →
      ∃ p, List.lookup name profiles = some p ∧
        ensureProfile profiles name = .ok p ∧
        handleServe split home osEnv profiles name extraArgs envOverrides =
          serveFromProfile split home osEnv name p extraArgs envOverrides ∧
        (∀ (W : KvWorld) (a : KvArgs), a.profile = some name →
          optTruthy a.profile = true →
          resolveKvSection W profiles a = kvSectionOfProfile W name p)) := by
  constructor
  · intro habs
    have hlook := lookup_eq_none_of_not_mem profiles name habs
    have herr : ensureProfile profiles name =
        .error ("Unknown profile \x27" ++ name ++ "\x27. Available: " ++
          String.intercalate ", " (sortStrs (profiles.map Prod.fst))) := by
      unfold ensureProfile
      rw [hlook]
    refine ⟨herr, ?_, ?_⟩
    · unfold handleServe
      rw [herr]
    · intro W a hprof htru
      unfold resolveKvSection
      rw [htru, hprof]
      dsimp only
      rw [herr]
      rfl
  · intro hmem
    obtain ⟨p, hp⟩ := lookup_isSome_of_mem profiles name hmem
    have hok : ensureProfile profiles name = .ok p := by
      unfold ensureProfile
      rw [hp]
    refine ⟨p, hp, hok, ?_, ?_⟩
    · unfold handleServe
      rw [hok]
    · intro W a hprof htru
      unfold resolveKvSection
      rw [htru, hprof]
      dsimp only
      rw [hok]
      rfl

/-- Witness for C5: the name "gamma" is not among `profiles0`'s keys, so
the lookup fails with the sorted list of available names. -/
theorem c5_witness :
    ensureProfile profiles0 "gamma" =
      .error ("Unknown profile \x27gamma\x27. Available: " ++
        String.intercalate ", " (sortStrs (profiles0.map Prod.fst))) ∧
    handleServe (fun s => [s]) "/root" [] profiles0 "gamma" [] [] =
      .error ("Unknown profile \x27gamma\x27. Available: " ++
        String.intercalate ", " (sortStrs (profiles0.map Prod.fst))) ∧
    (∀ (W : KvWorld) (a : KvArgs), a.profile = some "gamma" →
      optTruthy a.profile = true →
      resolveKvSection W profiles0 a =
        .error ("Unknown profile \x27gamma\x27. Available: " ++
          String.intercalate ", " (sortStrs (profiles0.map Prod.fst)))) :=
  (c5_ensure_profile_lookup profiles0 "gamma" (fun s => [s]) "/root" [] [] []).1
    (by decide)

end Manage

/-- Looking up a key right after `assocSet` stores it. -/
theorem lookup_assocSet_self {β : Type} (l : List (String × β)) (k : String)
    (v : β) : List.lookup k (assocSet l k v) = some v := by
  induction l with
  | nil => simp [assocSet, List.lookup]
  | cons kv rest ih =>
      obtain ⟨k', v'⟩ := kv
      by_cases h : k' = k
      · subst h
        simp [assocSet, List.lookup]
      · have hne : (k == k') = false := by simp [Ne.symm h]
        simp [assocSet, h, List.lookup, hne, ih]

/-- `assocSet` for a different key leaves a lookup unchanged. -/
theorem lookup_assocSet_ne {β : Type} (l : List (String × β)) (k k' : String)
    (v : β) (h : k ≠ k') : List.lookup k (assocSet l k' v) = List.lookup k l := by
  induction l with
  | nil =>
      have hne : (k == k') = false := by simp [h]
      simp [assocSet, List.lookup, hne]
  | cons kv rest ih =>
      obtain ⟨k0, v0⟩ := kv
      by_cases h0 : k0 = k'
      · subst h0
        have hne : (k == k0) = false := by simp [h]
        simp [assocSet, List.lookup, hne]
      · by_cases hk : k = k0
        · subst hk
          simp [assocSet, h0, List.lookup]
        · have hne : (k == k0) = false := by simp [hk]
          simp [assocSet, h0, List.lookup, hne, ih]

namespace Manage

/-- `assocSet` never removes an existing file. -/
theorem dirHas_assocSet_mono (d : Dir) (nm k : String) (v : Option J)
    (h : dirHas d nm = true) : dirHas (assocSet d k v) nm = true := by
  by_cases hk : nm = k
  · subst hk
    simp [dirHas, lookup_assocSet_self]
  · simpa [dirHas, lookup_assocSet_ne d nm k v hk] using h

/-- The defaults loop only writes missing files: an existing file's
content is untouched. -/
theorem synthLoop_lookup_preserved :
    ∀ (names : List String) (d : Dir) (nm : String),
      dirHas d nm = true →
      List.lookup nm (synthLoop d names) = List.lookup nm d := by
  intro names
  induction names with
  | nil => intro d nm _; rfl
  | cons n rest ih =>
      intro d nm hnm
      simp only [synthLoop]
      by_cases hn : dirHas d n
      · simp only [if_pos hn]
        exact ih d nm hnm
      · simp only [if_neg hn]
        have hne : nm ≠ n := by
          intro hcon
          subst hcon
          exact hn hnm
        rw [ih _ nm (dirHas_assocSet_mono d nm n _ hnm)]
        exact lookup_assocSet_ne d nm n _ hne

/-- After the defaults loop every listed file exists (and existing files
survive). -/
theorem synthLoop_has :
    ∀ (names : List String) (d : Dir) (nm : String),
      nm ∈ names ∨ dirHas d nm = true →
      dirHas (synthLoop d names) nm = true := by
  intro names
  induction names with
  | nil =>
      intro d nm h
      rcases h with h | h
      · simp at h
      · exact h
  | cons n rest ih =>
      intro d nm h
      simp only [synthLoop]
      by_cases hn : dirHas d n
      · simp only [if_pos hn]
        rcases h with h | h
        · rcases List.mem_cons.mp h with rfl | h2
          · exact ih d nm (Or.inr hn)
          · exact ih d nm (Or.inl h2)
        · exact ih d nm (Or.inr h)
      · simp only [if_neg hn]
        rcases h with h | h
        · rcases List.mem_cons.mp h with rfl | h2
          · exact ih _ nm (Or.inr (by simp [dirHas, lookup_assocSet_self]))
          · exact ih _ nm (Or.inl h2)
        · exact ih _ nm (Or.inr (dirHas_assocSet_mono d nm n _ h))

/-- A single write-if-missing step preserves existing files. -/
theorem writeIfMissing_lookup (d : Dir) (nm k : String) (v : Option J)
    (h : dirHas d nm = true) :
    List.lookup nm (if dirHas d k then d else assocSet d k v) =
      List.lookup nm d ∧
    dirHas (if dirHas d k then d else assocSet d k v) nm = true := by
  by_cases hk : dirHas d k
  · simp [hk, h]
  · have hne : nm ≠ k := fun hcon => hk (hcon ▸ h)
    simp only [Bool.not_eq_true] at hk
    simp only [hk, Bool.false_eq_true, if_false]
    exact ⟨lookup_assocSet_ne d nm k v hne, dirHas_assocSet_mono d nm k v h⟩

/-- `synthCore` writes each file only when it does not already exist: a
pre-existing file keeps its exact content. -/
theorem synthCore_lookup_preserved (d : Dir) (nm : String)
    (h : dirHas d nm = true) :
    List.lookup nm (synthCore d) = List.lookup nm d := by
  unfold synthCore
  dsimp only
  obtain ⟨e1, m1⟩ :=
    writeIfMissing_lookup d nm "config.json" (some (pickedConfig d)) h
  obtain ⟨e2, m2⟩ := writeIfMissing_lookup
    (if dirHas d "config.json" then d
     else assocSet d "config.json" (some (pickedConfig d)))
    nm "tokenizer_config.json"
    (some (tokenizerCfgPayload
      (if dirHas d "config.json" then d
       else assocSet d "config.json" (some (pickedConfig d))))) m1
  rw [synthLoop_lookup_preserved synthDefaultNames _ nm m2, e2, e1]

/-- The `added_tokens.json` rewrite leaves every other file unchanged. -/
theorem normalizeAddedTokens_lookup_ne (d : Dir) (nm : String)
    (h1 : nm ≠ "added_tokens.json") :
    List.lookup nm (normalizeAddedTokens d) = List.lookup nm d := by
  unfold normalizeAddedTokens
  split
  · exact lookup_assocSet_ne d nm _ _ h1
  · rfl

/-- `_normalize_tokenizer_artifacts` can write only `added_tokens.json`
and `tokenizer_config.json`. -/
theorem normalize_lookup_preserved (d d' : Dir) (nm : String)
    (h : normalizeTokenizerArtifacts d = .ok d')
    (h1 : nm ≠ "added_tokens.json") (h2 : nm ≠ "tokenizer_config.json") :
    List.lookup nm d' = List.lookup nm d := by
  unfold normalizeTokenizerArtifacts at h
  dsimp only at h
  repeat' split at h
  all_goals (try cases h)
  all_goals try rw [lookup_assocSet_ne _ nm _ _ h2]
  all_goals exact normalizeAddedTokens_lookup_ne d nm h1

/-- `_sanitize_config_for_offline` can write only `config.json`. -/
theorem sanitize_lookup_preserved (d d' : Dir) (nm : String)
    (h : sanitizeConfigForOffline d = .ok d')
    (h3 : nm ≠ "config.json") :
    List.lookup nm d' = List.lookup nm d := by
  unfold sanitizeConfigForOffline at h
  dsimp only at h
  repeat' split at h
  all_goals (try cases h)
  all_goals try rfl
  all_goals exact lookup_assocSet_ne d nm _ _ h3

/-- A write-if-missing step makes its target exist. -/
theorem writeIfMissing_has_self (d : Dir) (k : String) (v : Option J) :
    dirHas (if dirHas d k then d else assocSet d k v) k = true := by
  by_cases hk : dirHas d k
  · simp [hk]
  · simp only [Bool.not_eq_true] at hk
    rw [if_neg (by simp [hk])]
    simp [dirHas, lookup_assocSet_self]

/-- After `synthCore` every file of the synthesized set exists. -/
theorem synthCore_has (d : Dir) (nm : String) (hmem : nm ∈ synthesizedSet) :
    dirHas (synthCore d) nm = true := by
  unfold synthCore
  dsimp only
  have m1 : dirHas (if dirHas d "config.json" then d
      else assocSet d "config.json" (some (pickedConfig d))) "config.json" = true :=
    writeIfMissing_has_self d "config.json" (some (pickedConfig d))
  fin_cases hmem
  · exact synthLoop_has synthDefaultNames _ _
      (Or.inr ((writeIfMissing_lookup _ _ "tokenizer_config.json" _ m1).2))
  · exact synthLoop_has synthDefaultNames _ _
      (Or.inr (writeIfMissing_has_self _ _ _))
  · exact synthLoop_has synthDefaultNames _ _ (Or.inl (by decide))
  · exact synthLoop_has synthDefaultNames _ _ (Or.inl (by decide))
  · exact synthLoop_has synthDefaultNames _ _ (Or.inl (by decide))
  · exact synthLoop_has synthDefaultNames _ _ (Or.inl (by decide))

/-- Counterexample to C3 as stated: `added_tokens.json` is in the
synthesized set and already exists in `dir0`, yet
`_synthesize_transformer_files` changes its contents (the normalisation
pass rewrites the list form into the enumerated mapping). -/
theorem c3_counterexample :
    "added_tokens.json" ∈ synthesizedSet ∧
    dirHas dir0 "added_tokens.json" = true ∧
    ∃ d', synthesizeTransformerFiles dir0 = .ok d' ∧
      List.lookup "added_tokens.json" d' ≠
        List.lookup "added_tokens.json" dir0 := by
  refine ⟨by decide, rfl, _, rfl, ?_⟩
  intro hcon
  injection hcon with h1
  injection h1 with h2
  exact J.noConfusion h2

/-- C3 amended: each file of the synthesized set is created by
`_synthesize_transformer_files` only when it does not already exist (the
synthesis phase leaves every pre-existing file's contents unchanged, and
afterwards every file of the set exists); and a pre-existing
`special_tokens_map.json`, `generation_config.json` or
`preprocessor_config.json` survives the whole function unchanged — but
`added_tokens.json`, `tokenizer_config.json` and `config.json` may be
rewritten by the subsequent normalisation and offline-sanitisation
passes even when they already existed. -/
theorem c3_amended (d : Dir) (nm : String) (hmem : nm ∈ synthesizedSet) :
    (dirHas d nm = true →
      List.lookup nm (synthCore d) = List.lookup nm d) ∧
    dirHas (synthCore d) nm = true ∧
    (nm ∈ ["special_tokens_map.json", "generation_config.json",
           "preprocessor_config.json"] →
      dirHas d nm = true →
      ∀ d', synthesizeTransformerFiles d = .ok d' →
        List.lookup nm d' = List.lookup nm d) := by
  refine ⟨fun h => synthCore_lookup_preserved d nm h, synthCore_has d nm hmem, ?_⟩
  intro htrio hexist d' hsynth
  unfold synthesizeTransformerFiles at hsynth
  rcases hnorm : normalizeTokenizerArtifacts (synthCore d) with e | d1 <;>
    rw [hnorm] at hsynth
  · cases hsynth
  have hne1 : nm ≠ "added_tokens.json" := by fin_cases htrio <;> decide
  have hne2 : nm ≠ "tokenizer_config.json" := by fin_cases htrio <;> decide
  have hne3 : nm ≠ "config.json" := by fin_cases htrio <;> decide
  rw [sanitize_lookup_preserved d1 d' nm hsynth hne3,
    normalize_lookup_preserved (synthCore d) d1 nm hnorm hne1 hne2,
    synthCore_lookup_preserved d nm hexist]

/-- Witness for C3's amended statement: a directory with a pre-existing
`special_tokens_map.json`. -/
theorem c3_witness :
    (dirHas dir1 "special_tokens_map.json" = true →
      List.lookup "special_tokens_map.json" (synthCore dir1) =
        List.lookup "special_tokens_map.json" dir1) ∧
    dirHas (synthCore dir1) "special_tokens_map.json" = true ∧
    ("special_tokens_map.json" ∈ ["special_tokens_map.json",
        "generation_config.json", "preprocessor_config.json"] →
      dirHas dir1 "special_tokens_map.json" = true →
      ∀ d', synthesizeTransformerFiles dir1 = .ok d' →
        List.lookup "special_tokens_map.json" d' =
          List.lookup "special_tokens_map.json" dir1) :=
  c3_amended dir1 "special_tokens_map.json" (by decide)

end Manage

namespace Manage

/-- C10 (showing the code bug): `_clean_cache_root` compares the
`pathlib.Path` object against the `str` returned by `.anchor`, and
`Path == str` is always `False` in Python, so the "Refusing to remove
root directory" guard can never fire: called on the existing filesystem
root, the function proceeds to `shutil.rmtree("/")` and returns
normally instead of raising `SystemExit`. -/
theorem c10_clean_cache_root_removes_root :
    cleanCacheRoot ["/"] "/" = ([Ev.rmtree "/"], .ok ()) ∧
    (∀ p s, pyEq (.path p) (.str s) = false) :=
  ⟨rfl, fun _ _ => rfl⟩

end Manage

namespace Manage

/-- The calibration step under a successful `samples` read. -/
theorem kvCalibStep_ok (sec : J) (calibS : String) (evs1 : List Ev)
    (fs1 : List String) (samples : Int) (hsam : kvSamples sec = .ok samples) :
    kvCalibStep sec calibS evs1 fs1 =
      .ok (evs1 ++ kvCalibEvs sec calibS samples fs1, kvFs2 calibS fs1) := by
  unfold kvCalibStep kvCalibEvs kvFs2
  by_cases hc : fs1.contains calibS
  · simp only [hc, reduceIte, List.append_nil]
  · simp only [Bool.not_eq_true] at hc
    simp only [hc, Bool.false_eq_true, reduceIte]
    rw [hsam]

/-- The early-return branch of `handle_kv_calibrate`: existing output and
no `--force`. -/
theorem kvBody_early (W : KvWorld) (a : KvArgs) (modelId : String)
    (sec quantArgs : J) (fs : List String) (outS : String)
    (hout : kvOutputPath W sec = .ok outS)
    (hex : ((parentPath outS :: fs).contains outS && !a.force) = true) :
    kvBody W a modelId sec quantArgs fs =
      (kvVolumeEvs a modelId ++ [Ev.ensureDir (parentPath outS)], .ok 0) := by
  unfold kvBody
  rw [hout]
  dsimp only
  rw [hex]
  simp only [reduceIte]

/-- The full successful run of `handle_kv_calibrate`'s body: the exact
event trace in execution order. -/
theorem kvBody_run (W : KvWorld) (a : KvArgs) (modelId : String)
    (sec quantArgs : J) (fs : List String)
    (outS calibS cacheS repoS rel : String) (samples seqLen : Int)
    (qlist : List String)
    (hout : kvOutputPath W sec = .ok outS)
    (hcond : ((parentPath outS :: fs).contains outS && !a.force) = false)
    (hcal : kvCalibPath W sec = .ok calibS)
    (hsam : kvSamples sec = .ok samples)
    (hcache : kvCacheDir W sec = .ok cacheS)
    (hmdne : (W.modelDirFor modelId cacheS).isEmpty = false)
    (hrepo : kvRepoPath W sec = .ok repoS)
    (hseq : kvSeqLen sec = .ok seqLen)
    (hrel : kvScriptRel sec = .ok rel)
    (hscript : (kvFs6 (joinPath repoS "_modelscope_runner.py")
        (kvFs5 W repoS (W.modelDirFor modelId cacheS :: cacheS ::
          kvFs2 calibS (parentPath outS :: fs)))).contains
        (joinPath repoS rel) = true)
    (hqa : kvQuantArgsList quantArgs = .ok qlist) :
    kvBody W a modelId sec quantArgs fs =
      (kvVolumeEvs a modelId ++ [Ev.ensureDir (parentPath outS)] ++
       kvCalibEvs sec calibS samples (parentPath outS :: fs) ++
       [Ev.ensureDir cacheS, Ev.download modelId cacheS,
        Ev.synthesize (W.modelDirFor modelId cacheS), Ev.writeMetadata cacheS] ++
       kvCloneEvs repoS (W.modelDirFor modelId cacheS :: cacheS ::
         kvFs2 calibS (parentPath outS :: fs)) ++
       kvRunnerEvs (joinPath repoS "_modelscope_runner.py")
         (kvFs5 W repoS (W.modelDirFor modelId cacheS :: cacheS ::
           kvFs2 calibS (parentPath outS :: fs))) ++
       kvPipEvs a repoS ++ kvHfDirEvs W cacheS ++
       [Ev.runQuant (joinPath repoS "_modelscope_runner.py")
         (joinPath repoS rel) (W.modelDirFor modelId cacheS) outS seqLen
         calibS qlist], .ok 0) := by
  unfold kvBody
  rw [hout]
  dsimp only
  rw [hcond]
  simp only [Bool.false_eq_true, reduceIte]
  rw [hcal]
  dsimp only
  rw [kvCalibStep_ok sec calibS _ _ samples hsam]
  dsimp only
  rw [hcache]
  dsimp only
  rw [hmdne]
  simp only [Bool.false_eq_true, reduceIte]
  rw [hrepo]
  dsimp only
  rw [hseq]
  dsimp only
  rw [hrel]
  dsimp only
  rw [hscript]
  simp only [Bool.not_true, Bool.false_eq_true, reduceIte]
  rw [hqa]
  dsimp only
  simp [List.append_assoc]

/-- The missing-script branch: `handle_kv_calibrate` exits with the
`SystemExit` message after the installation steps and before any
quantization subprocess. -/
theorem kvBody_script_missing (W : KvWorld) (a : KvArgs) (modelId : String)
    (sec quantArgs : J) (fs : List String)
    (outS calibS cacheS repoS rel : String) (samples seqLen : Int)
    (hout : kvOutputPath W sec = .ok outS)
    (hcond : ((parentPath outS :: fs).contains outS && !a.force) = false)
    (hcal : kvCalibPath W sec = .ok calibS)
    (hsam : kvSamples sec = .ok samples)
    (hcache : kvCacheDir W sec = .ok cacheS)
    (hmdne : (W.modelDirFor modelId cacheS).isEmpty = false)
    (hrepo : kvRepoPath W sec = .ok repoS)
    (hseq : kvSeqLen sec = .ok seqLen)
    (hrel : kvScriptRel sec = .ok rel)
    (hscript : (kvFs6 (joinPath repoS "_modelscope_runner.py")
        (kvFs5 W repoS (W.modelDirFor modelId cacheS :: cacheS ::
          kvFs2 calibS (parentPath outS :: fs)))).contains
        (joinPath repoS rel) = false) :
    kvBody W a modelId sec quantArgs fs =
      (kvVolumeEvs a modelId ++ [Ev.ensureDir (parentPath outS)] ++
       kvCalibEvs sec calibS samples (parentPath outS :: fs) ++
       [Ev.ensureDir cacheS, Ev.download modelId cacheS,
        Ev.synthesize (W.modelDirFor modelId cacheS), Ev.writeMetadata cacheS] ++
       kvCloneEvs repoS (W.modelDirFor modelId cacheS :: cacheS ::
         kvFs2 calibS (parentPath outS :: fs)) ++
       kvRunnerEvs (joinPath repoS "_modelscope_runner.py")
         (kvFs5 W repoS (W.modelDirFor modelId cacheS :: cacheS ::
           kvFs2 calibS (parentPath outS :: fs))) ++
       kvPipEvs a repoS,
       .error ("Quantization script not found: " ++ joinPath repoS rel)) := by
  unfold kvBody
  rw [hout]
  dsimp only
  rw [hcond]
  simp only [Bool.false_eq_true, reduceIte]
  rw [hcal]
  dsimp only
  rw [kvCalibStep_ok sec calibS _ _ samples hsam]
  dsimp only
  rw [hcache]
  dsimp only
  rw [hmdne]
  simp only [Bool.false_eq_true, reduceIte]
  rw [hrepo]
  dsimp only
  rw [hseq]
  dsimp only
  rw [hrel]
  dsimp only
  rw [hscript]
  simp only [Bool.not_false, reduceIte]
  simp [List.append_assoc]

end Manage

namespace Manage

/-- Volume events are neither downloads, calibration writes, clones,
pip runs nor quantization runs. -/
theorem kvVolumeEvs_classifiers (a : KvArgs) (m : String) :
    ∀ e ∈ kvVolumeEvs a m,
      Ev.isDownload e = false ∧ Ev.isWriteCalib e = false ∧
      Ev.isClone e = false ∧ Ev.isPip e = false ∧ Ev.isQuant e = false := by
  intro e he
  unfold kvVolumeEvs at he
  split at he
  · simp at he
  · fin_cases he <;> exact ⟨rfl, rfl, rfl, rfl, rfl⟩

/-- Calibration-step events are not quantization runs. -/
theorem kvCalibEvs_noQuant (sec : J) (calibS : String) (samples : Int)
    (fs1 : List String) :
    ∀ e ∈ kvCalibEvs sec calibS samples fs1, Ev.isQuant e = false := by
  intro e he
  unfold kvCalibEvs at he
  split at he
  · simp at he
  · fin_cases he <;> rfl

/-- The clone event is not a quantization run. -/
theorem kvCloneEvs_noQuant (repoS : String) (fs4 : List String) :
    ∀ e ∈ kvCloneEvs repoS fs4, Ev.isQuant e = false := by
  intro e he
  unfold kvCloneEvs at he
  split at he
  · simp at he
  · fin_cases he
    rfl

/-- The runner write is not a quantization run. -/
theorem kvRunnerEvs_noQuant (runnerS : String) (fs5 : List String) :
    ∀ e ∈ kvRunnerEvs runnerS fs5, Ev.isQuant e = false := by
  intro e he
  unfold kvRunnerEvs at he
  split at he
  · simp at he
  · fin_cases he
    rfl

/-- The pip subprocesses are not quantization runs. -/
theorem kvPipEvs_noQuant (a : KvArgs) (repoS : String) :
    ∀ e ∈ kvPipEvs a repoS, Ev.isQuant e = false := by
  intro e he
  unfold kvPipEvs at he
  split at he
  · simp at he
  · fin_cases he <;> rfl

/-- The HF cache directory events are not quantization runs. -/
theorem kvHfDirEvs_noQuant (W : KvWorld) (cacheS : String) :
    ∀ e ∈ kvHfDirEvs W cacheS, Ev.isQuant e = false := by
  intro e he
  unfold kvHfDirEvs at he
  fin_cases he <;> rfl

end Manage

namespace Manage

/-- C2: for every successful `kv-calibrate` invocation that does not take
the reuse early-return, the operations occur in this order: the model
snapshot is downloaded (ModelScope) into the cache directory, the missing
transformer config files are synthesized in the model directory, the
llm-compressor repository is cloned when its path does not exist
(`kvCloneEvs`), packages are pip-installed unless `--skip-deps`
(`kvPipEvs`), and finally the quantization script is invoked as a
subprocess: the trace is exactly this ordered concatenation. -/
theorem c2_kv_calibrate_operation_order
    (W : KvWorld) (profiles : List (String × J)) (a : KvArgs)
    (fs : List String) (modelId : String) (sec quantArgs : J)
    (outS calibS cacheS repoS rel : String) (samples seqLen : Int)
    (qlist : List String)
    (hg : (!optTruthy a.profile && !optTruthy a.model) = false)
    (hres : resolveKvSection W profiles a = .ok (modelId, sec, quantArgs))
    (hout : kvOutputPath W sec = .ok outS)
    (hcond : ((parentPath outS :: fs).contains outS && !a.force) = false)
    (hcal : kvCalibPath W sec = .ok calibS)
    (hsam : kvSamples sec = .ok samples)
    (hcache : kvCacheDir W sec = .ok cacheS)
    (hmdne : (W.modelDirFor modelId cacheS).isEmpty = false)
    (hrepo : kvRepoPath W sec = .ok repoS)
    (hseq : kvSeqLen sec = .ok seqLen)
    (hrel : kvScriptRel sec = .ok rel)
    (hscript : (kvFs6 (joinPath repoS "_modelscope_runner.py")
        (kvFs5 W repoS (W.modelDirFor modelId cacheS :: cacheS ::
          kvFs2 calibS (parentPath outS :: fs)))).contains
        (joinPath repoS rel) = true)
    (hqa : kvQuantArgsList quantArgs = .ok qlist) :
    handleKvCalibrate W profiles a fs =
      (kvVolumeEvs a modelId ++ [Ev.ensureDir (parentPath outS)] ++
       kvCalibEvs sec calibS samples (parentPath outS :: fs) ++
       [Ev.ensureDir cacheS, Ev.download modelId cacheS,
        Ev.synthesize (W.modelDirFor modelId cacheS), Ev.writeMetadata cacheS] ++
       kvCloneEvs repoS (W.modelDirFor modelId cacheS :: cacheS ::
         kvFs2 calibS (parentPath outS :: fs)) ++
       kvRunnerEvs (joinPath repoS "_modelscope_runner.py")
         (kvFs5 W repoS (W.modelDirFor modelId cacheS :: cacheS ::
           kvFs2 calibS (parentPath outS :: fs))) ++
       kvPipEvs a repoS ++ kvHfDirEvs W cacheS ++
       [Ev.runQuant (joinPath repoS "_modelscope_runner.py")
         (joinPath repoS rel) (W.modelDirFor modelId cacheS) outS seqLen
         calibS qlist], .ok 0) := by
  unfold handleKvCalibrate
  rw [hg]
  simp only [Bool.false_eq_true, reduceIte]
  rw [hres]
  dsimp only
  exact kvBody_run W a modelId sec quantArgs fs outS calibS cacheS repoS rel
    samples seqLen qlist hout hcond hcal hsam hcache hmdne hrepo hseq hrel
    hscript hqa

/-- Witness for C2: the ad-hoc `--model m` invocation in the oracle
world `kvW0`, whose clone provides the default quantization script. -/
theorem c2_witness :
    handleKvCalibrate kvW0 [] kvArgs0 [] =
      (kvVolumeEvs kvArgs0 "m" ++ [Ev.ensureDir (parentPath kvOut0)] ++
       kvCalibEvs kvSec0 kvCalib0 512 (parentPath kvOut0 :: []) ++
       [Ev.ensureDir kvCache0, Ev.download "m" kvCache0,
        Ev.synthesize (kvW0.modelDirFor "m" kvCache0),
        Ev.writeMetadata kvCache0] ++
       kvCloneEvs kvRepo0 (kvW0.modelDirFor "m" kvCache0 :: kvCache0 ::
         kvFs2 kvCalib0 (parentPath kvOut0 :: [])) ++
       kvRunnerEvs (joinPath kvRepo0 "_modelscope_runner.py")
         (kvFs5 kvW0 kvRepo0 (kvW0.modelDirFor "m" kvCache0 :: kvCache0 ::
           kvFs2 kvCalib0 (parentPath kvOut0 :: []))) ++
       kvPipEvs kvArgs0 kvRepo0 ++ kvHfDirEvs kvW0 kvCache0 ++
       [Ev.runQuant (joinPath kvRepo0 "_modelscope_runner.py")
         (joinPath kvRepo0 defaultQuantScriptRel)
         (kvW0.modelDirFor "m" kvCache0) kvOut0 4096 kvCalib0 []], .ok 0) :=
  c2_kv_calibrate_operation_order kvW0 [] kvArgs0 [] "m" kvSec0 (J.arr [])
    kvOut0 kvCalib0 kvCache0 kvRepo0 defaultQuantScriptRel 512 4096 []
    rfl rfl rfl rfl rfl rfl rfl rfl rfl rfl rfl rfl rfl

/-- Quantization events never occur in event lists made only of setup
steps. -/
theorem noQuant_append {l1 l2 : List Ev}
    (h1 : ∀ e ∈ l1, Ev.isQuant e = false)
    (h2 : ∀ e ∈ l2, Ev.isQuant e = false) :
    ∀ e ∈ l1 ++ l2, Ev.isQuant e = false := by
  intro e he
  rcases List.mem_append.mp he with h | h
  · exact h1 e h
  · exact h2 e h

/-- Push a quantization-event characterisation through a quant-free
prefix. -/
theorem quant_through_append {l1 l2 : List Ev} {P : Ev → Prop}
    (h1 : ∀ e ∈ l1, Ev.isQuant e = false)
    (h2 : ∀ e ∈ l2, Ev.isQuant e = true → P e) :
    ∀ e ∈ l1 ++ l2, Ev.isQuant e = true → P e := by
  intro e he hq
  rcases List.mem_append.mp he with h | h
  · rw [h1 e h] at hq
    cases hq
  · exact h2 e h hq

end Manage

namespace Manage

/-- C7: `manage.py` never computes KV-cache scales itself: the
quantization step is a subprocess invocation (`Ev.runQuant`) of the
script resolved inside the llm-compressor repository
(`repo_path / quantization_script`), and when that resolved path does
not exist `handle_kv_calibrate` exits with `SystemExit` before any
quantization subprocess has been started. -/
theorem c7_quantization_external_and_guarded
    (W : KvWorld) (profiles : List (String × J)) (a : KvArgs)
    (fs : List String) (modelId : String) (sec quantArgs : J)
    (outS calibS cacheS repoS rel : String) (samples seqLen : Int)
    (hg : (!optTruthy a.profile && !optTruthy a.model) = false)
    (hres : resolveKvSection W profiles a = .ok (modelId, sec, quantArgs))
    (hout : kvOutputPath W sec = .ok outS)
    (hcond : ((parentPath outS :: fs).contains outS && !a.force) = false)
    (hcal : kvCalibPath W sec = .ok calibS)
    (hsam : kvSamples sec = .ok samples)
    (hcache : kvCacheDir W sec = .ok cacheS)
    (hmdne : (W.modelDirFor modelId cacheS).isEmpty = false)
    (hrepo : kvRepoPath W sec = .ok repoS)
    (hseq : kvSeqLen sec = .ok seqLen)
    (hrel : kvScriptRel sec = .ok rel) :
    ((kvFs6 (joinPath repoS "_modelscope_runner.py")
        (kvFs5 W repoS (W.modelDirFor modelId cacheS :: cacheS ::
          kvFs2 calibS (parentPath outS :: fs)))).contains
        (joinPath repoS rel) = false →
      handleKvCalibrate W profiles a fs =
        (kvVolumeEvs a modelId ++ [Ev.ensureDir (parentPath outS)] ++
         kvCalibEvs sec calibS samples (parentPath outS :: fs) ++
         [Ev.ensureDir cacheS, Ev.download modelId cacheS,
          Ev.synthesize (W.modelDirFor modelId cacheS),
          Ev.writeMetadata cacheS] ++
         kvCloneEvs repoS (W.modelDirFor modelId cacheS :: cacheS ::
           kvFs2 calibS (parentPath outS :: fs)) ++
         kvRunnerEvs (joinPath repoS "_modelscope_runner.py")
           (kvFs5 W repoS (W.modelDirFor modelId cacheS :: cacheS ::
             kvFs2 calibS (parentPath outS :: fs))) ++
         kvPipEvs a repoS,
         .error ("Quantization script not found: " ++ joinPath repoS rel)) ∧
      (∀ e ∈ kvVolumeEvs a modelId ++ [Ev.ensureDir (parentPath outS)] ++
         kvCalibEvs sec calibS samples (parentPath outS :: fs) ++
         [Ev.ensureDir cacheS, Ev.download modelId cacheS,
          Ev.synthesize (W.modelDirFor modelId cacheS),
          Ev.writeMetadata cacheS] ++
         kvCloneEvs repoS (W.modelDirFor modelId cacheS :: cacheS ::
           kvFs2 calibS (parentPath outS :: fs)) ++
         kvRunnerEvs (joinPath repoS "_modelscope_runner.py")
           (kvFs5 W repoS (W.modelDirFor modelId cacheS :: cacheS ::
             kvFs2 calibS (parentPath outS :: fs))) ++
         kvPipEvs a repoS, Ev.isQuant e = false)) ∧
    (∀ qlist, kvQuantArgsList quantArgs = .ok qlist →
      (kvFs6 (joinPath repoS "_modelscope_runner.py")
        (kvFs5 W repoS (W.modelDirFor modelId cacheS :: cacheS ::
          kvFs2 calibS (parentPath outS :: fs)))).contains
        (joinPath repoS rel) = true →
      handleKvCalibrate W profiles a fs =
        (kvVolumeEvs a modelId ++ [Ev.ensureDir (parentPath outS)] ++
         kvCalibEvs sec calibS samples (parentPath outS :: fs) ++
         [Ev.ensureDir cacheS, Ev.download modelId cacheS,
          Ev.synthesize (W.modelDirFor modelId cacheS),
          Ev.writeMetadata cacheS] ++
         kvCloneEvs repoS (W.modelDirFor modelId cacheS :: cacheS ::
           kvFs2 calibS (parentPath outS :: fs)) ++
         kvRunnerEvs (joinPath repoS "_modelscope_runner.py")
           (kvFs5 W repoS (W.modelDirFor modelId cacheS :: cacheS ::
             kvFs2 calibS (parentPath outS :: fs))) ++
         kvPipEvs a repoS ++ kvHfDirEvs W cacheS ++
         [Ev.runQuant (joinPath repoS "_modelscope_runner.py")
           (joinPath repoS rel) (W.modelDirFor modelId cacheS) outS seqLen
           calibS qlist], .ok 0) ∧
      (∀ e ∈ kvVolumeEvs a modelId ++ [Ev.ensureDir (parentPath outS)] ++
         kvCalibEvs sec calibS samples (parentPath outS :: fs) ++
         [Ev.ensureDir cacheS, Ev.download modelId cacheS,
          Ev.synthesize (W.modelDirFor modelId cacheS),
          Ev.writeMetadata cacheS] ++
         kvCloneEvs repoS (W.modelDirFor modelId cacheS :: cacheS ::
           kvFs2 calibS (parentPath outS :: fs)) ++
         kvRunnerEvs (joinPath repoS "_modelscope_runner.py")
           (kvFs5 W repoS (W.modelDirFor modelId cacheS :: cacheS ::
             kvFs2 calibS (parentPath outS :: fs))) ++
         kvPipEvs a repoS ++ kvHfDirEvs W cacheS ++
         [Ev.runQuant (joinPath repoS "_modelscope_runner.py")
           (joinPath repoS rel) (W.modelDirFor modelId cacheS) outS seqLen
           calibS qlist],
        Ev.isQuant e = true →
          e = Ev.runQuant (joinPath repoS "_modelscope_runner.py")
            (joinPath repoS rel) (W.modelDirFor modelId cacheS) outS seqLen
            calibS qlist)) := by
  have hA := fun e he => (kvVolumeEvs_classifiers a modelId e he).2.2.2.2
  have hB : ∀ e ∈ [Ev.ensureDir (parentPath outS)], Ev.isQuant e = false := by
    intro e he
    fin_cases he
    rfl
  have hC := kvCalibEvs_noQuant sec calibS samples (parentPath outS :: fs)
  have hD : ∀ e ∈ [Ev.ensureDir cacheS, Ev.download modelId cacheS,
      Ev.synthesize (W.modelDirFor modelId cacheS), Ev.writeMetadata cacheS],
      Ev.isQuant e = false := by
    intro e he
    fin_cases he <;> rfl
  have hE := kvCloneEvs_noQuant repoS (W.modelDirFor modelId cacheS :: cacheS ::
    kvFs2 calibS (parentPath outS :: fs))
  have hF := kvRunnerEvs_noQuant (joinPath repoS "_modelscope_runner.py")
    (kvFs5 W repoS (W.modelDirFor modelId cacheS :: cacheS ::
      kvFs2 calibS (parentPath outS :: fs)))
  have hG := kvPipEvs_noQuant a repoS
  have hH := kvHfDirEvs_noQuant W cacheS
  constructor
  · intro hmiss
    constructor
    · unfold handleKvCalibrate
      rw [hg]
      simp only [Bool.false_eq_true, reduceIte]
      rw [hres]
      dsimp only
      exact kvBody_script_missing W a modelId sec quantArgs fs outS calibS
        cacheS repoS rel samples seqLen hout hcond hcal hsam hcache hmdne
        hrepo hseq hrel hmiss
    · exact noQuant_append (noQuant_append (noQuant_append (noQuant_append
        (noQuant_append (noQuant_append hA hB) hC) hD) hE) hF) hG
  · intro qlist hqa hpresent
    constructor
    · unfold handleKvCalibrate
      rw [hg]
      simp only [Bool.false_eq_true, reduceIte]
      rw [hres]
      dsimp only
      exact kvBody_run W a modelId sec quantArgs fs outS calibS cacheS repoS
        rel samples seqLen qlist hout hcond hcal hsam hcache hmdne hrepo hseq
        hrel hpresent hqa
    · have hI : ∀ e ∈ [Ev.runQuant (joinPath repoS "_modelscope_runner.py")
          (joinPath repoS rel) (W.modelDirFor modelId cacheS) outS seqLen
          calibS qlist], Ev.isQuant e = true →
          e = Ev.runQuant (joinPath repoS "_modelscope_runner.py")
            (joinPath repoS rel) (W.modelDirFor modelId cacheS) outS seqLen
            calibS qlist := by
        intro e he _
        fin_cases he
        rfl
      exact quant_through_append (noQuant_append (noQuant_append
        (noQuant_append (noQuant_append (noQuant_append (noQuant_append
          (noQuant_append hA hB) hC) hD) hE) hF) hG) hH) hI

/-- Witness for C7: in world `kvW1` the clone lacks the default script,
so the handler stops with the `SystemExit` message and no quantization
event appears. -/
theorem c7_witness :
    handleKvCalibrate kvW1 [] kvArgs0 [] =
      (kvVolumeEvs kvArgs0 "m" ++ [Ev.ensureDir (parentPath kvOut0)] ++
       kvCalibEvs (kvModelSection kvW1 kvArgs0 "m") kvCalib0 512
         (parentPath kvOut0 :: []) ++
       [Ev.ensureDir kvCache0, Ev.download "m" kvCache0,
        Ev.synthesize (kvW1.modelDirFor "m" kvCache0),
        Ev.writeMetadata kvCache0] ++
       kvCloneEvs kvRepo0 (kvW1.modelDirFor "m" kvCache0 :: kvCache0 ::
         kvFs2 kvCalib0 (parentPath kvOut0 :: [])) ++
       kvRunnerEvs (joinPath kvRepo0 "_modelscope_runner.py")
         (kvFs5 kvW1 kvRepo0 (kvW1.modelDirFor "m" kvCache0 :: kvCache0 ::
           kvFs2 kvCalib0 (parentPath kvOut0 :: []))) ++
       kvPipEvs kvArgs0 kvRepo0,
       .error ("Quantization script not found: " ++
         joinPath kvRepo0 defaultQuantScriptRel)) ∧
    (∀ e ∈ kvVolumeEvs kvArgs0 "m" ++ [Ev.ensureDir (parentPath kvOut0)] ++
       kvCalibEvs (kvModelSection kvW1 kvArgs0 "m") kvCalib0 512
         (parentPath kvOut0 :: []) ++
       [Ev.ensureDir kvCache0, Ev.download "m" kvCache0,
        Ev.synthesize (kvW1.modelDirFor "m" kvCache0),
        Ev.writeMetadata kvCache0] ++
       kvCloneEvs kvRepo0 (kvW1.modelDirFor "m" kvCache0 :: kvCache0 ::
         kvFs2 kvCalib0 (parentPath kvOut0 :: [])) ++
       kvRunnerEvs (joinPath kvRepo0 "_modelscope_runner.py")
         (kvFs5 kvW1 kvRepo0 (kvW1.modelDirFor "m" kvCache0 :: kvCache0 ::
           kvFs2 kvCalib0 (parentPath kvOut0 :: []))) ++
       kvPipEvs kvArgs0 kvRepo0, Ev.isQuant e = false) :=
  (c7_quantization_external_and_guarded kvW1 [] kvArgs0 [] "m"
    (kvModelSection kvW1 kvArgs0 "m") (J.arr []) kvOut0 kvCalib0 kvCache0
    kvRepo0 defaultQuantScriptRel 512 4096
    rfl rfl rfl rfl rfl rfl rfl rfl rfl rfl rfl).1 rfl

/-- C9: when the resolved output file already exists and `--force` is
absent, `handle_kv_calibrate` returns 0 immediately after ensuring the
output's parent directory: the trace holds only the volume bookkeeping
and that `ensureDir`, with no model download, no calibration-data write,
no clone, no pip install, and no quantization subprocess. -/
theorem c9_kv_calibrate_reuse_noop
    (W : KvWorld) (profiles : List (String × J)) (a : KvArgs)
    (fs : List String) (modelId : String) (sec quantArgs : J) (outS : String)
    (hg : (!optTruthy a.profile && !optTruthy a.model) = false)
    (hres : resolveKvSection W profiles a = .ok (modelId, sec, quantArgs))
    (hout : kvOutputPath W sec = .ok outS)
    (hex : (parentPath outS :: fs).contains outS = true)
    (hforce : a.force = false) :
    handleKvCalibrate W profiles a fs =
      (kvVolumeEvs a modelId ++ [Ev.ensureDir (parentPath outS)], .ok 0) ∧
    (∀ e ∈ kvVolumeEvs a modelId ++ [Ev.ensureDir (parentPath outS)],
      Ev.isDownload e = false ∧ Ev.isWriteCalib e = false ∧
      Ev.isClone e = false ∧ Ev.isPip e = false ∧ Ev.isQuant e = false) := by
  constructor
  · unfold handleKvCalibrate
    rw [hg]
    simp only [Bool.false_eq_true, reduceIte]
    rw [hres]
    dsimp only
    exact kvBody_early W a modelId sec quantArgs fs outS hout
      (by rw [hex, hforce]; rfl)
  · intro e he
    rcases List.mem_append.mp he with h | h
    · exact kvVolumeEvs_classifiers a modelId e h
    · fin_cases h
      exact ⟨rfl, rfl, rfl, rfl, rfl⟩

/-- Witness for C9: the output file already exists and `--force` is not
given. -/
theorem c9_witness :
    handleKvCalibrate kvW0 [] kvArgs0 [kvOut0] =
      (kvVolumeEvs kvArgs0 "m" ++ [Ev.ensureDir (parentPath kvOut0)], .ok 0) ∧
    (∀ e ∈ kvVolumeEvs kvArgs0 "m" ++ [Ev.ensureDir (parentPath kvOut0)],
      Ev.isDownload e = false ∧ Ev.isWriteCalib e = false ∧
      Ev.isClone e = false ∧ Ev.isPip e = false ∧ Ev.isQuant e = false) :=
  c9_kv_calibrate_reuse_noop kvW0 [] kvArgs0 [kvOut0] "m"
    (kvModelSection kvW0 { kvArgs0 with } "m") (J.arr []) kvOut0
    rfl rfl rfl rfl rfl

end Manage
